import Mathlib

/-!
# Verification of the gourmet-support avatar pipeline

A shallow embedding, over exact real arithmetic, of the core of the
real-time 3D avatar pipeline of this repository:

* `src/gvrm-format/ply.ts` — point-cloud loading, auto-rigging
  (`PLYLoader.detectBonePositions`, `generateTemplatePoints`, `load`);
* `src/gvrm-format/auto-calibration.ts` — bounding box and height
  normalization (`AutoCalibration.computeBoundingBox`,
  `computeAdaptiveScale`);
* `src/gvrm-format/vrm.ts` — the skeleton / pose solver (`VRMManager`);
* `src/gvrm-format/gs.ts` — the Gaussian-splat viewer's latent-tile
  update (`GSViewer.updateLatentTile`);
* `src/gvrm-format/gvrm.ts` — asset loading (`GVRM.loadAssets`).

JavaScript numbers are modelled as real numbers (`ℝ`); `Float32Array`s
as `List ℝ`; the special values `NaN`/`±Infinity` of the latent buffers
are modelled by an explicit sum type where the code branches on them.
-/

noncomputable section

set_option maxRecDepth 16000

/-- A 3D vector, modelling `THREE.Vector3`. -/
@[ext]
structure V3 where
  x : ℝ
  y : ℝ
  z : ℝ

/-- The axis-aligned bounding box returned by
`AutoCalibration.computeBoundingBox`. -/
@[ext]
structure BBox where
  min : V3
  max : V3
  center : V3
  size : V3

/-- Minimum of a list of reals.  The JS code folds `Math.min` starting
from `Infinity`; on a nonempty list that equals the list minimum, which
is what `List.min?` computes.  The empty cloud (where JS would keep
`Infinity`) is mapped to the junk value 0; every theorem about the
bounding box assumes a nonempty cloud. -/
def listMin (l : List ℝ) : ℝ := (l.min?).getD 0

/-- Maximum of a list of reals; see `listMin`. -/
def listMax (l : List ℝ) : ℝ := (l.max?).getD 0

/-- `AutoCalibration.computeBoundingBox`: per-axis min/max over all
positions, with `center = (min+max)/2` and `size = max - min`. -/
def computeBoundingBox (positions : List V3) : BBox :=
  let minv : V3 := ⟨listMin (positions.map V3.x), listMin (positions.map V3.y),
    listMin (positions.map V3.z)⟩
  let maxv : V3 := ⟨listMax (positions.map V3.x), listMax (positions.map V3.y),
    listMax (positions.map V3.z)⟩
  { min := minv
    max := maxv
    center := ⟨(minv.x + maxv.x) / 2, (minv.y + maxv.y) / 2, (minv.z + maxv.z) / 2⟩
    size := ⟨maxv.x - minv.x, maxv.y - minv.y, maxv.z - minv.z⟩ }

/-- Result of `AutoCalibration.computeAdaptiveScale`. -/
structure ScaleInfo where
  scaleFactor : ℝ
  normalizedHeight : ℝ

/-- `AutoCalibration.computeAdaptiveScale`: a uniform scale factor
`targetHeight / bbox.size.y`. -/
def computeAdaptiveScale (bbox : BBox) (targetHeight : ℝ) : ScaleInfo :=
  { scaleFactor := targetHeight / bbox.size.y
    normalizedHeight := targetHeight }

/-- Pass 2 of `PLYLoader.load`: normalization of one raw position,
`x' = (x - center.x)·s`, `y' = (y - min.y)·s`, `z' = (z - center.z)·s`. -/
def normalizePoint (bbox : BBox) (scaleFactor : ℝ) (p : V3) : V3 :=
  ⟨(p.x - bbox.center.x) * scaleFactor,
   (p.y - bbox.min.y) * scaleFactor,
   (p.z - bbox.center.z) * scaleFactor⟩

/-- The normalized point cloud produced by Pass 2 of `PLYLoader.load`
(target height fixed to 1.70 as at the call site). -/
def normalizedCloud (l : List V3) : List V3 :=
  let bbox := computeBoundingBox l
  let s := (computeAdaptiveScale bbox 1.70).scaleFactor
  l.map (normalizePoint bbox s)

/- ### Helper lemmas on list minima/maxima -/

theorem foldl_min_map_monotone {f : ℝ → ℝ} (hf : Monotone f) (l : List ℝ) :
    ∀ a : ℝ, (l.map f).foldl min (f a) = f (l.foldl min a) := by
  induction l with
  | nil => intro a; simp
  | cons x xs ih =>
    intro a
    simp only [List.map_cons, List.foldl_cons]
    rw [← hf.map_min, ih]

theorem foldl_max_map_monotone {f : ℝ → ℝ} (hf : Monotone f) (l : List ℝ) :
    ∀ a : ℝ, (l.map f).foldl max (f a) = f (l.foldl max a) := by
  induction l with
  | nil => intro a; simp
  | cons x xs ih =>
    intro a
    simp only [List.map_cons, List.foldl_cons]
    rw [← hf.map_max, ih]

theorem listMin_map_monotone {f : ℝ → ℝ} (hf : Monotone f) (x : ℝ) (xs : List ℝ) :
    listMin ((x :: xs).map f) = f (listMin (x :: xs)) := by
  simp only [listMin, List.map_cons, List.min?_cons', Option.getD_some]
  exact foldl_min_map_monotone hf xs x

theorem listMax_map_monotone {f : ℝ → ℝ} (hf : Monotone f) (x : ℝ) (xs : List ℝ) :
    listMax ((x :: xs).map f) = f (listMax (x :: xs)) := by
  simp only [listMax, List.map_cons, List.max?_cons', Option.getD_some]
  exact foldl_max_map_monotone hf xs x

/- ### Claims C6 and C7: calibration -/

/-- **C6.** For a point cloud whose raw Y coordinates span
`[minY, maxY]`, calibration to target height 1.70 maps a point at the
maximum raw height to normalized `Y = 1.70` and a point at the minimum
raw height to normalized `Y = 0`, via
`y' = (y - minY) * (1.70 / (maxY - minY))`. -/
theorem calibration_maps_extremes (l : List V3) (ptop pbot : V3)
    (hlt : (computeBoundingBox l).min.y < (computeBoundingBox l).max.y)
    (htop : ptop.y = (computeBoundingBox l).max.y)
    (hbot : pbot.y = (computeBoundingBox l).min.y) :
    (normalizePoint (computeBoundingBox l)
      (computeAdaptiveScale (computeBoundingBox l) 1.70).scaleFactor ptop).y = 1.70 ∧
    (normalizePoint (computeBoundingBox l)
      (computeAdaptiveScale (computeBoundingBox l) 1.70).scaleFactor pbot).y = 0 := by
  set bb := computeBoundingBox l with hbb
  have hsize : bb.size.y = bb.max.y - bb.min.y := rfl
  have hne : bb.max.y - bb.min.y ≠ 0 := sub_ne_zero.mpr (ne_of_gt hlt)
  constructor
  · simp only [normalizePoint, computeAdaptiveScale, htop, hsize]
    field_simp
  · simp only [normalizePoint, computeAdaptiveScale, hbot, hsize]
    ring

/-- Concrete instance of `calibration_maps_extremes`: the cloud with
points at heights 0, 0.6, 1.2, 1.8. -/
def cloudFour : List V3 := [⟨0, 0, 0⟩, ⟨0, 0.6, 0⟩, ⟨0, 1.2, 0⟩, ⟨0, 1.8, 0⟩]

theorem calibration_maps_extremes_witness :
    ((computeBoundingBox cloudFour).min.y < (computeBoundingBox cloudFour).max.y) ∧
    ((normalizePoint (computeBoundingBox cloudFour)
      (computeAdaptiveScale (computeBoundingBox cloudFour) 1.70).scaleFactor
        ⟨0, 1.8, 0⟩).y = 1.70 ∧
     (normalizePoint (computeBoundingBox cloudFour)
      (computeAdaptiveScale (computeBoundingBox cloudFour) 1.70).scaleFactor
        ⟨0, 0, 0⟩).y = 0) := by
  have hmin : (computeBoundingBox cloudFour).min.y = 0 := by
    simp only [computeBoundingBox, cloudFour, listMin, List.map_cons, List.map_nil,
      List.min?_cons', List.foldl_cons, List.foldl_nil, Option.getD_some]
    norm_num [min_def]
  have hmax : (computeBoundingBox cloudFour).max.y = 1.8 := by
    simp only [computeBoundingBox, cloudFour, listMax, List.map_cons, List.map_nil,
      List.max?_cons', List.foldl_cons, List.foldl_nil, Option.getD_some]
    norm_num [max_def]
  have hlt : (computeBoundingBox cloudFour).min.y < (computeBoundingBox cloudFour).max.y := by
    rw [hmin, hmax]; norm_num
  exact ⟨hlt, calibration_maps_extremes cloudFour ⟨0, 1.8, 0⟩ ⟨0, 0, 0⟩ hlt
    (by rw [hmax]) (by rw [hmin])⟩

/-- **C7.** Calibration is idempotent on the normalized output: for a
non-degenerate cloud the bounding box of the normalized positions has
Y-size exactly 1.70, so re-calibrating the normalized positions gives
scale factor 1. -/
theorem calibration_idempotent (l : List V3)
    (h : 0 < (computeBoundingBox l).size.y) :
    (computeBoundingBox (normalizedCloud l)).size.y = 1.70 ∧
    (computeAdaptiveScale (computeBoundingBox (normalizedCloud l)) 1.70).scaleFactor = 1 := by
  obtain ⟨p, ps, rfl⟩ : ∃ p ps, l = p :: ps := by
    cases l with
    | nil =>
      exfalso
      simp only [computeBoundingBox, listMin, listMax, List.map_nil, List.min?_nil,
        List.max?_nil, Option.getD_none] at h
      norm_num at h
    | cons p ps => exact ⟨p, ps, rfl⟩
  set bb := computeBoundingBox (p :: ps) with hbb
  set s : ℝ := 1.70 / bb.size.y with hs
  have hspos : 0 < s := by positivity
  have hmono : Monotone (fun y : ℝ => (y - bb.min.y) * s) := by
    intro a b hab
    exact mul_le_mul_of_nonneg_right (sub_le_sub_right hab _) hspos.le
  have hmapy : (normalizedCloud (p :: ps)).map V3.y
      = ((p :: ps).map V3.y).map (fun y : ℝ => (y - bb.min.y) * s) := by
    simp only [normalizedCloud, ← hbb, computeAdaptiveScale, ← hs, List.map_map]
    rfl
  have hminy : listMin ((normalizedCloud (p :: ps)).map V3.y)
      = (listMin ((p :: ps).map V3.y) - bb.min.y) * s := by
    rw [hmapy]
    exact listMin_map_monotone hmono p.y (ps.map V3.y)
  have hmaxy : listMax ((normalizedCloud (p :: ps)).map V3.y)
      = (listMax ((p :: ps).map V3.y) - bb.min.y) * s := by
    rw [hmapy]
    exact listMax_map_monotone hmono p.y (ps.map V3.y)
  have hsizey : (computeBoundingBox (normalizedCloud (p :: ps))).size.y
      = (listMax ((p :: ps).map V3.y) - listMin ((p :: ps).map V3.y)) * s := by
    show listMax ((normalizedCloud (p :: ps)).map V3.y)
      - listMin ((normalizedCloud (p :: ps)).map V3.y) = _
    rw [hminy, hmaxy]; ring
  have hraw : bb.size.y = listMax ((p :: ps).map V3.y) - listMin ((p :: ps).map V3.y) := rfl
  have hne : bb.size.y ≠ 0 := ne_of_gt h
  have hfinal : (computeBoundingBox (normalizedCloud (p :: ps))).size.y = 1.70 := by
    rw [hsizey, ← hraw, hs]
    field_simp
  refine ⟨hfinal, ?_⟩
  simp only [computeAdaptiveScale, hfinal]
  norm_num

theorem calibration_idempotent_witness :
    0 < (computeBoundingBox cloudFour).size.y ∧
    (computeBoundingBox (normalizedCloud cloudFour)).size.y = 1.70 := by
  have hpos : 0 < (computeBoundingBox cloudFour).size.y := by
    show 0 < listMax (cloudFour.map V3.y) - listMin (cloudFour.map V3.y)
    simp only [cloudFour, listMin, listMax, List.map_cons, List.map_nil,
      List.min?_cons', List.max?_cons', List.foldl_cons, List.foldl_nil, Option.getD_some]
    norm_num [min_def, max_def]
  exact ⟨hpos, (calibration_idempotent cloudFour hpos).1⟩

/- ### The auto-rigging pass (`PLYLoader.detectBonePositions`,
`generateTemplatePoints` and Pass 3 of `PLYLoader.load`) -/

/-- A synthetic template point `{x, y, z, bone}` (`ply.ts`). -/
@[ext]
structure TPoint where
  x : ℝ
  y : ℝ
  z : ℝ
  bone : ℕ

/-- A detected bone: centroid position and radius (`ply.ts`
`BonePosition`). -/
@[ext]
structure BonePosition where
  position : V3
  radius : ℝ

/-- `computeCentroid` in `PLYLoader.detectBonePositions`: the mean of
the cluster, `(0,0,0)` on the empty cluster. -/
def computeCentroid (pts : List V3) : V3 :=
  if pts.length = 0 then ⟨0, 0, 0⟩
  else ⟨(pts.map V3.x).sum / pts.length, (pts.map V3.y).sum / pts.length,
        (pts.map V3.z).sum / pts.length⟩

/-- `computeStdDev` in `PLYLoader.detectBonePositions`: the standard
deviation along the axis selected by the accessor, `0.1` on the empty
cluster. -/
def computeStdDev (pts : List V3) (axis : V3 → ℝ) : ℝ :=
  if pts.length = 0 then 0.1
  else
    Real.sqrt ((pts.map
      (fun p => (axis p - (pts.map axis).sum / pts.length) ^ 2)).sum / pts.length)

/-- `getPointsInRange` (the optional Z bounds are never supplied at any
call site of the source). -/
def getPointsInRange (points : List V3) (minY maxY : ℝ) : List V3 :=
  points.filter (fun p => decide (minY ≤ p.y ∧ p.y ≤ maxY))

/-- The eight detected bones, keyed as in the source:
0 hips, 3 spine1, 9 chest, 12 neck, 15 head, 16 left shoulder,
17 right shoulder, 22 jaw. -/
@[ext]
structure BoneMap where
  hips : BonePosition
  spine1 : BonePosition
  chest : BonePosition
  neck : BonePosition
  head : BonePosition
  lshoulder : BonePosition
  rshoulder : BonePosition
  jaw : BonePosition

/-- `--- 1. Hips (Root) ---`: band 0.50–0.65 of the height, radius
floor 0.12. -/
def hipsBone (points : List V3) (height : ℝ) : BonePosition :=
  ⟨computeCentroid (getPointsInRange points (0.50 * height) (0.65 * height)),
   max (computeStdDev (getPointsInRange points (0.50 * height) (0.65 * height)) V3.x) 0.12⟩

/-- `--- 2. Spine1 ---`: band 0.60–0.75, radius floor 0.14. -/
def spine1Bone (points : List V3) (height : ℝ) : BonePosition :=
  ⟨computeCentroid (getPointsInRange points (0.60 * height) (0.75 * height)),
   max (computeStdDev (getPointsInRange points (0.60 * height) (0.75 * height)) V3.x) 0.14⟩

/-- `--- 3. Chest (Spine3) ---`: band 0.75–0.88, radius floor 0.15. -/
def chestBone (points : List V3) (height : ℝ) : BonePosition :=
  ⟨computeCentroid (getPointsInRange points (0.75 * height) (0.88 * height)),
   max (computeStdDev (getPointsInRange points (0.75 * height) (0.88 * height)) V3.x) 0.15⟩

/-- `--- 4. Neck ---`: band 0.88–0.93, radius floor 0.06. -/
def neckBone (points : List V3) (height : ℝ) : BonePosition :=
  ⟨computeCentroid (getPointsInRange points (0.88 * height) (0.93 * height)),
   max (computeStdDev (getPointsInRange points (0.88 * height) (0.93 * height)) V3.x) 0.06⟩

/-- `--- 5. Head ---`: band 0.90–1.0, radius floor 0.10. -/
def headBone (points : List V3) (height : ℝ) : BonePosition :=
  ⟨computeCentroid (getPointsInRange points (0.90 * height) (1.0 * height)),
   max (computeStdDev (getPointsInRange points (0.90 * height) (1.0 * height)) V3.x) 0.10⟩

/-- `--- 6. Jaw ---` candidate region: within +0.08 height above the
neck centroid, in front of it on Z, narrow around its X. -/
def jawRegion (points : List V3) (neckCenter : V3) : List V3 :=
  points.filter (fun p => decide
    ((neckCenter.y ≤ p.y ∧ p.y ≤ neckCenter.y + 0.08) ∧
     neckCenter.z + 0.02 < p.z ∧ |p.x - neckCenter.x| < 0.08))

/-- The jaw cluster: the 20% (at least 10) with lowest Y among the
candidate region.  JS `Array.prototype.sort` is stable, so it is
modelled by the stable `List.insertionSort`; `slice` becomes `take`. -/
def jawCandidates (points : List V3) (neckCenter : V3) : List V3 :=
  let sorted := List.insertionSort (fun a b => a.y ≤ b.y) (jawRegion points neckCenter)
  sorted.take (Nat.max 10 (Nat.floor ((sorted.length : ℝ) * 0.2)))

/-- `--- 6. Jaw ---`: centroid of the cluster, or the documented fixed
offset from the neck when the cluster is too small or degenerate. -/
def jawBone (points : List V3) (neckCenter : V3) : BonePosition :=
  if (jawCandidates points neckCenter).length < 5 ∨
      (computeCentroid (jawCandidates points neckCenter)).y < neckCenter.y then
    ⟨⟨neckCenter.x, neckCenter.y + 0.05, neckCenter.z + 0.08⟩, 0.04⟩
  else ⟨computeCentroid (jawCandidates points neckCenter), 0.04⟩

/-- `--- 7. Shoulders ---`: the chest-height band sorted by X (stable
sort, as in the JS engine). -/
def shoulderCluster (points : List V3) (shoulderHeight : ℝ) : List V3 :=
  List.insertionSort (fun a b : V3 => a.x ≤ b.x)
    (getPointsInRange points (shoulderHeight - 0.05) (shoulderHeight + 0.05))

/-- Left shoulder: centroid of the outer 20% with largest X
(`sortedByX.slice(floor(len*0.8))`), fixed radius 0.06. -/
def lShoulderBone (points : List V3) (shoulderHeight : ℝ) : BonePosition :=
  ⟨computeCentroid ((shoulderCluster points shoulderHeight).drop
     (Nat.floor (((shoulderCluster points shoulderHeight).length : ℝ) * 0.8))), 0.06⟩

/-- Right shoulder: centroid of the outer 20% with smallest X
(`sortedByX.slice(0, floor(len*0.2))`), fixed radius 0.06. -/
def rShoulderBone (points : List V3) (shoulderHeight : ℝ) : BonePosition :=
  ⟨computeCentroid ((shoulderCluster points shoulderHeight).take
     (Nat.floor (((shoulderCluster points shoulderHeight).length : ℝ) * 0.2))), 0.06⟩

/-- `PLYLoader.detectBonePositions`, assembled exactly as in the
source: the jaw uses the neck centroid, the shoulders use the chest
centroid's height. -/
def detectBonePositions (points : List V3) (bbox : BBox) : BoneMap :=
  ⟨hipsBone points bbox.size.y,
   spine1Bone points bbox.size.y,
   chestBone points bbox.size.y,
   neckBone points bbox.size.y,
   headBone points bbox.size.y,
   lShoulderBone points (chestBone points bbox.size.y).position.y,
   rShoulderBone points (chestBone points bbox.size.y).position.y,
   jawBone points (neckBone points bbox.size.y).position⟩

/-- One sample of the coarse partial-sphere fan used for every non-jaw
bone (`addSphere`, else-branch). -/
def fanPoint (boneIdx : ℕ) (center : V3) (radius : ℝ) (density i j : ℕ) : TPoint :=
  let p := (i : ℝ) / density * (Real.pi / 4)
  let t := (j : ℝ) / density * (Real.pi / 3) * 2
  ⟨center.x + radius * Real.sin p * Real.cos t,
   center.y + radius * Real.cos p,
   center.z + radius * Real.sin p * Real.sin t,
   boneIdx⟩

/-- One sample of the front-biased half-shell used for the jaw
(`addSphere`, bone-22 branch). -/
def jawPoint (boneIdx : ℕ) (center : V3) (radius : ℝ) (density i j : ℕ) : TPoint :=
  let phi := (i : ℝ) / density * Real.pi - Real.pi / 2
  let theta := (j : ℝ) / density * Real.pi - Real.pi / 2
  ⟨center.x + radius * Real.cos phi * Real.sin (theta + Real.pi / 2),
   center.y + radius * Real.sin phi,
   center.z + radius * Real.cos phi * Real.cos (theta + Real.pi / 2),
   boneIdx⟩

/-- `addSphere` in `PLYLoader.generateTemplatePoints`: both loops run
from `0` to `density` inclusive, `i` outer, `j` inner. -/
def addSphere (boneIdx : ℕ) (center : V3) (radius : ℝ) (density : ℕ) : List TPoint :=
  if boneIdx = 22 then
    (List.range (density + 1)).flatMap (fun i =>
      (List.range (density + 1)).map (fun j => jawPoint boneIdx center radius density i j))
  else
    (List.range (density + 1)).flatMap (fun i =>
      (List.range (density + 1)).map (fun j => fanPoint boneIdx center radius density i j))

/-- `PLYLoader.generateTemplatePoints`: `Object.entries` enumerates the
integer-like keys in ascending order (0, 3, 9, 12, 15, 16, 17, 22);
density is 8 for the jaw, 5 for the head and 4 otherwise. -/
def generateTemplatePoints (bones : BoneMap) : List TPoint :=
  addSphere 0 bones.hips.position bones.hips.radius 4 ++
  addSphere 3 bones.spine1.position bones.spine1.radius 4 ++
  addSphere 9 bones.chest.position bones.chest.radius 4 ++
  addSphere 12 bones.neck.position bones.neck.radius 4 ++
  addSphere 15 bones.head.position bones.head.radius 5 ++
  addSphere 16 bones.lshoulder.position bones.lshoulder.radius 4 ++
  addSphere 17 bones.rshoulder.position bones.rshoulder.radius 4 ++
  addSphere 22 bones.jaw.position bones.jaw.radius 8

/-- Squared Euclidean distance from a (normalized) point to a template
point, as in Pass 3 of `PLYLoader.load`. -/
def distSqV (p : V3) (tp : TPoint) : ℝ :=
  (p.x - tp.x) ^ 2 + (p.y - tp.y) ^ 2 + (p.z - tp.z) ^ 2

/-- One iteration of the brute-force nearest-neighbor loop:
`if (distSq < minDistSq) { minDistSq = distSq; bestBone = tp.bone; }`.
`Infinity` (the initial `minDistSq`) is modelled by `⊤` in
`WithTop ℝ`. -/
def nearestStep (p : V3) (acc : ℕ × WithTop ℝ) (tp : TPoint) : ℕ × WithTop ℝ :=
  if (distSqV p tp : WithTop ℝ) < acc.2 then (tp.bone, (distSqV p tp : WithTop ℝ)) else acc

/-- The nearest-neighbor search of Pass 3: `bestBone` starts at 0,
`minDistSq` at `Infinity`. -/
def nearestBone (tps : List TPoint) (p : V3) : ℕ :=
  (tps.foldl (nearestStep p) (0, ⊤)).1

/-- Bone detection runs on the normalized cloud with its own bounding
box (`PLYLoader.load`, Pass 2). -/
def boneMapOf (l : List V3) : BoneMap :=
  detectBonePositions (normalizedCloud l) (computeBoundingBox (normalizedCloud l))

def templatesOf (l : List V3) : List TPoint := generateTemplatePoints (boneMapOf l)

/-- Pass 3 of `PLYLoader.load`: the bone assigned to the point with raw
position `p` of the cloud `l`. -/
def assignedBone (l : List V3) (p : V3) : ℕ :=
  nearestBone (templatesOf l)
    (normalizePoint (computeBoundingBox l)
      (computeAdaptiveScale (computeBoundingBox l) 1.70).scaleFactor p)

/-- Per-point rig output of `PLYLoader.load`: bone index plus the fixed
weight 1.0 written by `data.boneWeights.set([1.0, 0.0, 0.0, 0.0])`. -/
def rigOutput (l : List V3) : List (ℕ × ℝ) := l.map (fun p => (assignedBone l p, 1.0))

/- ### Claim C1: every point gets one bone from the fixed 8-bone set -/

theorem nearestFold_bone_mem (p : V3) (tps : List TPoint) :
    ∀ acc : ℕ × WithTop ℝ, (tps.foldl (nearestStep p) acc).1 = acc.1 ∨
      (tps.foldl (nearestStep p) acc).1 ∈ tps.map TPoint.bone := by
  induction tps with
  | nil => intro acc; left; rfl
  | cons t ts ih =>
    intro acc
    simp only [List.foldl_cons, List.map_cons, List.mem_cons]
    rcases ih (nearestStep p acc t) with h | h
    · rw [h]
      unfold nearestStep
      split
      · right; left; rfl
      · left; rfl
    · right; right; exact h

theorem addSphere_bone {tp : TPoint} {b : ℕ} {c : V3} {r : ℝ} {d : ℕ}
    (h : tp ∈ addSphere b c r d) : tp.bone = b := by
  unfold addSphere at h
  split at h <;>
  · simp only [List.mem_flatMap, List.mem_map, List.mem_range] at h
    obtain ⟨i, _, j, _, rfl⟩ := h
    rfl

theorem templates_bone_mem {tp : TPoint} {bm : BoneMap}
    (h : tp ∈ generateTemplatePoints bm) :
    tp.bone ∈ ({0, 3, 9, 12, 15, 16, 17, 22} : Finset ℕ) := by
  unfold generateTemplatePoints at h
  simp only [List.mem_append] at h
  rcases h with ((((((h | h) | h) | h) | h) | h) | h) | h <;>
    rw [addSphere_bone h] <;> decide

/-- **C1.** The rigging pass assigns every point of the loaded cloud
exactly one bone index from the fixed 8-bone set
{0, 3, 9, 12, 15, 16, 17, 22}, with bone weight exactly 1.0; no point
is left unassigned. -/
theorem nearestBone_mem_of_forall (tps : List TPoint) (p : V3)
    (hall : ∀ tp ∈ tps, tp.bone ∈ ({0, 3, 9, 12, 15, 16, 17, 22} : Finset ℕ)) :
    nearestBone tps p ∈ ({0, 3, 9, 12, 15, 16, 17, 22} : Finset ℕ) := by
  unfold nearestBone
  rcases nearestFold_bone_mem p tps (0, ⊤) with h | h
  · rw [h]; decide
  · simp only [List.mem_map] at h
    obtain ⟨tp, htp, hb⟩ := h
    rw [← hb]
    exact hall tp htp

set_option maxHeartbeats 2000000 in
theorem rig_assigns_single_bone (l : List V3) (e : ℕ × ℝ)
    (he : e ∈ rigOutput l) :
    e.1 ∈ ({0, 3, 9, 12, 15, 16, 17, 22} : Finset ℕ) ∧ e.2 = 1.0 := by
  simp only [rigOutput, List.mem_map] at he
  obtain ⟨p, -, he⟩ := he
  subst he
  exact ⟨nearestBone_mem_of_forall _ _ (fun tp htp => templates_bone_mem htp), rfl⟩

theorem rig_assigns_single_bone_witness :
    ((assignedBone cloudFour ⟨0, 0, 0⟩, (1.0 : ℝ)) ∈ rigOutput cloudFour) ∧
    ((assignedBone cloudFour ⟨0, 0, 0⟩, (1.0 : ℝ)).1 ∈
      ({0, 3, 9, 12, 15, 16, 17, 22} : Finset ℕ)) := by
  have hmem : (assignedBone cloudFour ⟨0, 0, 0⟩, (1.0 : ℝ)) ∈ rigOutput cloudFour := by
    simp only [rigOutput, List.mem_map]
    exact ⟨⟨0, 0, 0⟩, by simp [cloudFour], rfl⟩
  exact ⟨hmem, (rig_assigns_single_bone cloudFour _ hmem).1⟩

/- ### Claim C10: bone detection is total -/

/-- **C10.** Bone detection is total: on every cloud (empty height bands
included) each of the 8 bones gets a defined centroid and a strictly
positive radius; the empty cluster yields centroid `(0,0,0)` and
standard deviation `0.1`; each radius is floor-clamped per bone
(hips ≥ 0.12, spine1 ≥ 0.14, chest ≥ 0.15, neck ≥ 0.06, head ≥ 0.10,
shoulders = 0.06, jaw = 0.04). -/
theorem bone_detection_total (points : List V3) (bbox : BBox) :
    (0.12 ≤ (detectBonePositions points bbox).hips.radius ∧
     0.14 ≤ (detectBonePositions points bbox).spine1.radius ∧
     0.15 ≤ (detectBonePositions points bbox).chest.radius ∧
     0.06 ≤ (detectBonePositions points bbox).neck.radius ∧
     0.10 ≤ (detectBonePositions points bbox).head.radius ∧
     (detectBonePositions points bbox).lshoulder.radius = 0.06 ∧
     (detectBonePositions points bbox).rshoulder.radius = 0.06 ∧
     (detectBonePositions points bbox).jaw.radius = 0.04) ∧
    (0 < (detectBonePositions points bbox).hips.radius ∧
     0 < (detectBonePositions points bbox).spine1.radius ∧
     0 < (detectBonePositions points bbox).chest.radius ∧
     0 < (detectBonePositions points bbox).neck.radius ∧
     0 < (detectBonePositions points bbox).head.radius ∧
     0 < (detectBonePositions points bbox).lshoulder.radius ∧
     0 < (detectBonePositions points bbox).rshoulder.radius ∧
     0 < (detectBonePositions points bbox).jaw.radius) ∧
    (computeCentroid [] = ⟨0, 0, 0⟩ ∧ ∀ axis, computeStdDev [] axis = 0.1) := by
  refine ⟨⟨?_, ?_, ?_, ?_, ?_, ?_, ?_, ?_⟩, ⟨?_, ?_, ?_, ?_, ?_, ?_, ?_, ?_⟩,
    rfl, fun _ => rfl⟩ <;>
  simp only [detectBonePositions, hipsBone, spine1Bone, chestBone, neckBone, headBone,
    lShoulderBone, rShoulderBone, jawBone] <;>
  first
    | exact le_max_right _ _
    | exact lt_of_lt_of_le (by norm_num) (le_max_right _ _)
    | (split <;> first | rfl | norm_num)
    | norm_num

/- ### The Gaussian-splat viewer's latent tile (`GSViewer.updateLatentTile`,
`gs.ts`) -/

/-- One `Float32Array` entry of the latent buffer, as classified by the
`isNaN` / `isFinite` branches of `GSViewer.updateLatentTile`: a finite
real, `NaN`, or an infinity.  The tile update performs no arithmetic on
latent entries — only classification and copying — so this discrete
model is exact. -/
inductive FVal where
  | fin (v : ℝ)
  | nan
  | posInf
  | negInf

def FVal.isNaN : FVal → Bool
  | .nan => true
  | _ => false

def FVal.isFinite : FVal → Bool
  | .fin _ => true
  | _ => false

/-- Sanitization of one source entry in the inner loop of
`updateLatentTile`: an index past the end of the latent buffer writes
0; a `NaN` or non-finite value is replaced by 0. -/
def sanitizeLatent (latent : List FVal) (src : ℕ) : FVal :=
  if latent.length ≤ src then .fin 0
  else
    let v := latent.getD src (.fin 0)
    if v.isNaN then .fin 0
    else if ¬ v.isFinite then .fin 0
    else v

/-- The tile attribute built by `updateLatentTile` for an in-range
index: entry `i*4 + c` holds the sanitized latent entry
`i*32 + tileIndex*4 + c`. -/
def computeTile (vertexCount : ℕ) (latent : List FVal) (tileIndex : ℕ) : List FVal :=
  (List.range vertexCount).flatMap (fun i =>
    (List.range 4).map (fun c => sanitizeLatent latent (i * 32 + tileIndex * 4 + c)))

/-- The state of `GSViewer` touched by `updateLatentTile`: the latent
buffer and the currently installed `latentTile` geometry attribute. -/
structure GSState where
  vertexCount : ℕ
  latentData : List FVal
  tileAttr : List FVal

/-- `GSViewer.updateLatentTile`.  The second component is `some msg`
when the call is rejected through `console.error` plus early `return`
(no attribute write), and `none` when the tile attribute is set. -/
def updateLatentTile (s : GSState) (tileIndex : ℤ) : GSState × Option String :=
  if tileIndex < 0 ∨ 8 ≤ tileIndex then
    (s, some "Invalid tileIndex, must be 0-7")
  else
    ({ s with tileAttr := computeTile s.vertexCount s.latentData tileIndex.toNat }, none)

theorem updateLatentTile_inRange (s : GSState) (i : ℤ) (h : 0 ≤ i ∧ i ≤ 7) :
    updateLatentTile s i =
      ({ s with tileAttr := computeTile s.vertexCount s.latentData i.toNat }, none) := by
  unfold updateLatentTile
  rw [if_neg]
  omega

theorem updateLatentTile_outOfRange (s : GSState) (i : ℤ) (h : ¬ (0 ≤ i ∧ i ≤ 7)) :
    updateLatentTile s i = (s, some "Invalid tileIndex, must be 0-7") := by
  unfold updateLatentTile
  rw [if_pos]
  omega

/- ### Claim C4: updateLatentTile validates its index -/

/-- **C4.** `updateLatentTile(i)` succeeds — installing the `i`-th
4-channel latent slice as the active tile attribute — iff `0 ≤ i ≤ 7`;
outside that range it is rejected with a logged error, mutates nothing,
and the previously active tile is retained. -/
theorem updateLatentTile_range (s : GSState) (i : ℤ) :
    ((0 ≤ i ∧ i ≤ 7) → updateLatentTile s i =
      ({ s with tileAttr := computeTile s.vertexCount s.latentData i.toNat }, none)) ∧
    (¬ (0 ≤ i ∧ i ≤ 7) → (updateLatentTile s i).1 = s ∧
      (updateLatentTile s i).2 = some "Invalid tileIndex, must be 0-7") :=
  ⟨fun h => updateLatentTile_inRange s i h,
   fun h => by rw [updateLatentTile_outOfRange s i h]; exact ⟨rfl, rfl⟩⟩

theorem updateLatentTile_range_witness :
    (updateLatentTile ⟨2, [FVal.nan], []⟩ 9).1 = ⟨2, [FVal.nan], []⟩ ∧
    (updateLatentTile ⟨2, [FVal.nan], []⟩ 9).2 = some "Invalid tileIndex, must be 0-7" :=
  (updateLatentTile_range ⟨2, [FVal.nan], []⟩ 9).2 (by decide)

/- ### Claim C9: tile writes are length-exact and sanitized -/

theorem sanitizeLatent_isFinite (latent : List FVal) (src : ℕ) :
    (sanitizeLatent latent src).isFinite = true := by
  unfold sanitizeLatent
  split
  · rfl
  · dsimp only
    split
    · rfl
    · split
      · rfl
      · rename_i hfin
        simpa using hfin

theorem sanitizeLatent_oob (latent : List FVal) (src : ℕ)
    (h : latent.length ≤ src) : sanitizeLatent latent src = .fin 0 := by
  unfold sanitizeLatent
  rw [if_pos h]

theorem sanitizeLatent_bad (latent : List FVal) (src : ℕ)
    (h : (latent.getD src (.fin 0)).isNaN = true ∨
         (latent.getD src (.fin 0)).isFinite = false) :
    sanitizeLatent latent src = .fin 0 := by
  unfold sanitizeLatent
  split
  · rfl
  · dsimp only
    rcases h with h | h
    · rw [if_pos h]
    · split
      · rfl
      · rw [if_pos]
        rw [List.getD_eq_getElem?_getD] at h
        simp [h]

theorem computeTile_succ (vc : ℕ) (latent : List FVal) (ti : ℕ) :
    computeTile (vc + 1) latent ti = computeTile vc latent ti ++
      (List.range 4).map (fun c => sanitizeLatent latent (vc * 32 + ti * 4 + c)) := by
  unfold computeTile
  rw [List.range_succ, List.flatMap_append]
  simp

theorem computeTile_length (vc : ℕ) (latent : List FVal) (ti : ℕ) :
    (computeTile vc latent ti).length = vc * 4 := by
  induction vc with
  | zero => rfl
  | succ n ih =>
    rw [computeTile_succ, List.length_append, ih]
    simp [Nat.succ_mul]

theorem computeTile_getD (vc : ℕ) (latent : List FVal) (ti : ℕ) :
    ∀ k c : ℕ, k < vc → c < 4 →
      (computeTile vc latent ti).getD (k * 4 + c) (.fin 37)
        = sanitizeLatent latent (k * 32 + ti * 4 + c) := by
  induction vc with
  | zero => intro k c hk _; omega
  | succ n ih =>
    intro k c hk hc
    rw [computeTile_succ]
    rcases Nat.lt_or_ge k n with hkn | hkn
    · rw [List.getD_eq_getElem?_getD, List.getElem?_append_left, ← List.getD_eq_getElem?_getD]
      · exact ih k c hkn hc
      · rw [computeTile_length]; omega
    · have hk' : k = n := by omega
      subst hk'
      rw [List.getD_eq_getElem?_getD, List.getElem?_append_right, computeTile_length]
      · have h4 : k * 4 + c - k * 4 = c := by omega
        rw [h4]
        interval_cases c <;> simp [List.range_succ]
      · rw [computeTile_length]; omega

theorem computeTile_mem (vc : ℕ) (latent : List FVal) (ti : ℕ) (v : FVal)
    (hv : v ∈ computeTile vc latent ti) :
    ∃ src, v = sanitizeLatent latent src := by
  unfold computeTile at hv
  simp only [List.mem_flatMap, List.mem_map, List.mem_range] at hv
  obtain ⟨i, _, c, _, rfl⟩ := hv
  exact ⟨_, rfl⟩

/-- **C9.** For every in-range tile index and every latent buffer
(including buffers with `NaN`/infinite entries or shorter than
`vertexCount*32` floats), `updateLatentTile` writes a tile attribute of
exactly `vertexCount*4` entries, each finite: `NaN` and non-finite
source values are replaced by 0, and source indices past the end of the
latent buffer yield 0. -/
theorem tile_write_sanitized (s : GSState) (i : ℤ) (h : 0 ≤ i ∧ i ≤ 7) :
    ((updateLatentTile s i).1.tileAttr).length = s.vertexCount * 4 ∧
    (∀ v ∈ (updateLatentTile s i).1.tileAttr, v.isFinite = true) ∧
    (∀ k c : ℕ, k < s.vertexCount → c < 4 →
      ((s.latentData.length ≤ k * 32 + i.toNat * 4 + c →
        ((updateLatentTile s i).1.tileAttr).getD (k * 4 + c) (.fin 37) = .fin 0) ∧
       ((s.latentData.getD (k * 32 + i.toNat * 4 + c) (.fin 0)).isNaN = true ∨
        (s.latentData.getD (k * 32 + i.toNat * 4 + c) (.fin 0)).isFinite = false →
        ((updateLatentTile s i).1.tileAttr).getD (k * 4 + c) (.fin 37) = .fin 0))) := by
  rw [updateLatentTile_inRange s i h]
  refine ⟨computeTile_length _ _ _, ?_, ?_⟩
  · intro v hv
    obtain ⟨src, rfl⟩ := computeTile_mem _ _ _ v hv
    exact sanitizeLatent_isFinite _ _
  · intro k c hk hc
    constructor
    · intro hoob
      rw [computeTile_getD _ _ _ k c hk hc]
      exact sanitizeLatent_oob _ _ hoob
    · intro hbad
      rw [computeTile_getD _ _ _ k c hk hc]
      exact sanitizeLatent_bad _ _ hbad

theorem tile_write_sanitized_witness :
    ((updateLatentTile ⟨1, [FVal.nan, FVal.posInf], []⟩ 0).1.tileAttr).length = 1 * 4 := by
  have h := tile_write_sanitized ⟨1, [FVal.nan, FVal.posInf], []⟩ 0 (by decide)
  exact h.1

/- ### The skeleton / pose solver (`VRMManager`, `vrm.ts`) -/

/-- A 4×4 matrix, modelling `THREE.Matrix4`. -/
abbrev Mat4 := Matrix (Fin 4) (Fin 4) ℝ

/-- Euler angles (`THREE.Euler`, default rotation order XYZ). -/
structure Euler3 where
  x : ℝ
  y : ℝ
  z : ℝ

/-- `SKELETON_POS`: the fixed pivot of each bone slot; the lookup
`SKELETON_POS[boneIndex] || new THREE.Vector3(0,0,0)` defaults to the
origin. -/
def SKELETON_POS (idx : ℕ) : V3 :=
  if idx = 0 then ⟨0, 1.05, 0⟩
  else if idx = 3 then ⟨0, 1.25, 0⟩
  else if idx = 6 then ⟨0, 1.35, 0⟩
  else if idx = 9 then ⟨0, 1.45, 0⟩
  else if idx = 12 then ⟨0, 1.55, 0⟩
  else if idx = 15 then ⟨0, 1.65, 0.05⟩
  else if idx = 16 then ⟨0.22, 1.42, 0⟩
  else if idx = 17 then ⟨-0.22, 1.42, 0⟩
  else if idx = 22 then ⟨0, 1.60, 0.08⟩
  else ⟨0, 0, 0⟩

/-- `HIERARCHY`: the static parent table; the root (0) has no parent. -/
def HIERARCHY (idx : ℕ) : Option ℕ :=
  if idx = 3 then some 0
  else if idx = 6 then some 3
  else if idx = 9 then some 6
  else if idx = 12 then some 9
  else if idx = 15 then some 12
  else if idx = 22 then some 15
  else if idx = 16 then some 9
  else if idx = 17 then some 9
  else none

/-- `THREE.Matrix4.makeTranslation`. -/
def makeTranslation (tx ty tz : ℝ) : Mat4 :=
  !![1, 0, 0, tx; 0, 1, 0, ty; 0, 0, 1, tz; 0, 0, 0, 1]

/-- `THREE.Matrix4.makeRotationFromEuler` for the default XYZ order,
with `a = cos x`, `b = sin x`, `c = cos y`, `d = sin y`, `e = cos z`,
`f = sin z` as in the THREE source. -/
def makeRotationFromEuler (r : Euler3) : Mat4 :=
  !![Real.cos r.y * Real.cos r.z,
     -(Real.cos r.y * Real.sin r.z),
     Real.sin r.y, 0;
     Real.cos r.x * Real.sin r.z + Real.sin r.x * Real.cos r.z * Real.sin r.y,
     Real.cos r.x * Real.cos r.z - Real.sin r.x * Real.sin r.z * Real.sin r.y,
     -(Real.sin r.x * Real.cos r.y), 0;
     Real.sin r.x * Real.sin r.z - Real.cos r.x * Real.cos r.z * Real.sin r.y,
     Real.sin r.x * Real.cos r.z + Real.cos r.x * Real.sin r.z * Real.sin r.y,
     Real.cos r.x * Real.cos r.y, 0;
     0, 0, 0, 1]

/-- `VRMManager.getPivotMatrix`: translate to the pivot, rotate,
translate back (`m = T · R · T⁻¹`). -/
def getPivotMatrix (idx : ℕ) (rot : Euler3) : Mat4 :=
  makeTranslation (SKELETON_POS idx).x (SKELETON_POS idx).y (SKELETON_POS idx).z *
    makeRotationFromEuler rot *
    makeTranslation (-(SKELETON_POS idx).x) (-(SKELETON_POS idx).y) (-(SKELETON_POS idx).z)

/-- The fixed topological solve order of `VRMManager.solveHierarchy`. -/
def solveOrder : List ℕ := [0, 3, 6, 9, 12, 15, 16, 17, 22]

/-- One step of `solveHierarchy`: compose the bone's pivot-relative
local matrix with its parent's already-resolved global matrix, record
the global matrix, and write the bone's matrix slot. -/
def solveStep (rot : ℕ → Euler3) (acc : (ℕ → Option Mat4) × (ℕ → Mat4)) (idx : ℕ) :
    (ℕ → Option Mat4) × (ℕ → Mat4) :=
  let localMat := getPivotMatrix idx (rot idx)
  let gm : Mat4 :=
    match HIERARCHY idx with
    | some pIdx =>
      match acc.1 pIdx with
      | some pg => pg * localMat
      | none => localMat
    | none => localMat
  (Function.update acc.1 idx (some gm), Function.update acc.2 idx gm)

/-- `VRMManager.solveHierarchy`: resolve the nine solved slots in
order, leaving every other slot of the 64-slot matrix table
untouched. -/
def solveHierarchy (rot : ℕ → Euler3) (mats : ℕ → Mat4) : ℕ → Mat4 :=
  (solveOrder.foldl (solveStep rot) (fun _ => none, mats)).2

/-- The `VRMManager` state: the 64-slot matrix table (slot `k` holds
the 16 floats at offset `k*16`), the per-bone local rotations, and the
current lip-sync level. -/
structure VRMState where
  matrices : ℕ → Mat4
  localRot : ℕ → Euler3
  lipSyncLevel : ℝ

/-- The `VRMManager` constructor / `resetPose`: all 64 slots identity,
all local rotations zero. -/
def initVRM : VRMState := ⟨fun _ => 1, fun _ => ⟨0, 0, 0⟩, 0⟩

/-- `VRMManager.setLipSync`. -/
def setLipSync (s : VRMState) (level : ℝ) : VRMState := { s with lipSyncLevel := level }

/-- The local rotations written by `VRMManager.update` at elapsed time
`time`: root fixed, chest breathing, head sway, jaw proportional to the
lip-sync level (factor 0.5), shoulders in a fixed A-pose; all other
slots keep their reset value. -/
def updateRotations (s : VRMState) (time : ℝ) : ℕ → Euler3 := fun idx =>
  if idx = 0 then ⟨0, 0, 0⟩
  else if idx = 9 then ⟨Real.sin (time * 1.5) * 0.015, 0, 0⟩
  else if idx = 15 then ⟨Real.sin (time * 0.4) * 0.01, Real.sin (time * 0.25) * 0.01, 0⟩
  else if idx = 22 then ⟨s.lipSyncLevel * 0.5, 0, 0⟩
  else if idx = 16 then ⟨0.1, 0, -1.2⟩
  else if idx = 17 then ⟨0.1, 0, 1.2⟩
  else s.localRot idx

/-- `VRMManager.update`: one pose-solve tick. -/
def vrmUpdate (s : VRMState) (time : ℝ) : VRMState :=
  { matrices := solveHierarchy (updateRotations s time) s.matrices
    localRot := updateRotations s time
    lipSyncLevel := s.lipSyncLevel }

/-- A run of the frame loop: each event sets the lip-sync level and
performs one pose-solve tick at the given elapsed time. -/
def runTicks (evs : List (ℝ × ℝ)) : VRMState :=
  evs.foldl (fun st e => vrmUpdate (setLipSync st e.2) e.1) initVRM

/- ### Claim C3: lip-sync drives the jaw rotation -/

/-- **C3.** After `updateLipSync(1.0)` (i.e. `setLipSync` on the pose
solver), the next pose-solve tick produces a jaw (bone 22) local
rotation with X-component exactly `1.0 * 0.5 = 0.5` rad; after
`updateLipSync(0.0)` the jaw local rotation X-component is 0 rad. -/
theorem lipsync_drives_jaw (s : VRMState) (time : ℝ) :
    ((vrmUpdate (setLipSync s 1.0) time).localRot 22).x = 0.5 ∧
    ((vrmUpdate (setLipSync s 0.0) time).localRot 22).x = 0 := by
  constructor <;>
  · show (updateRotations _ time 22).x = _
    simp only [updateRotations, setLipSync]
    norm_num

/- ### Claim C8: unused matrix slots stay identity; root is identity -/

theorem solveFold_unwritten (rot : ℕ → Euler3) (l : List ℕ) :
    ∀ acc k, k ∉ l → (l.foldl (solveStep rot) acc).2 k = acc.2 k := by
  induction l with
  | nil => intro acc k _; rfl
  | cons a as ih =>
    intro acc k hk
    simp only [List.mem_cons, not_or] at hk
    rw [List.foldl_cons, ih _ k hk.2]
    show Function.update acc.2 a _ k = acc.2 k
    rw [Function.update_noteq hk.1]

theorem makeRotationFromEuler_zero : makeRotationFromEuler ⟨0, 0, 0⟩ = 1 := by
  unfold makeRotationFromEuler
  ext i j
  fin_cases i <;> fin_cases j <;>
    simp [Matrix.one_apply, Real.cos_zero, Real.sin_zero,
      Matrix.vecHead, Matrix.vecTail, Function.comp]

theorem makeTranslation_mul_inv (tx ty tz : ℝ) :
    makeTranslation tx ty tz * makeTranslation (-tx) (-ty) (-tz) = 1 := by
  unfold makeTranslation
  ext i j
  fin_cases i <;> fin_cases j <;>
    simp [Matrix.mul_apply, Fin.sum_univ_four, Matrix.one_apply,
      Matrix.vecHead, Matrix.vecTail, Function.comp]

theorem getPivotMatrix_zero (idx : ℕ) : getPivotMatrix idx ⟨0, 0, 0⟩ = 1 := by
  unfold getPivotMatrix
  rw [makeRotationFromEuler_zero, mul_one, makeTranslation_mul_inv]

theorem solveStep_sets (rot : ℕ → Euler3) (acc : (ℕ → Option Mat4) × (ℕ → Mat4)) (idx : ℕ) :
    (solveStep rot acc idx).2 idx =
      (match HIERARCHY idx with
        | some pIdx =>
          match acc.1 pIdx with
          | some pg => pg * getPivotMatrix idx (rot idx)
          | none => getPivotMatrix idx (rot idx)
        | none => getPivotMatrix idx (rot idx)) := by
  unfold solveStep
  apply Function.update_same

theorem solveHierarchy_root (rot : ℕ → Euler3) (mats : ℕ → Mat4)
    (h0 : rot 0 = ⟨0, 0, 0⟩) : solveHierarchy rot mats 0 = 1 := by
  unfold solveHierarchy solveOrder
  rw [List.foldl_cons, solveFold_unwritten rot _ _ 0 (by decide), solveStep_sets]
  have hh : HIERARCHY 0 = none := rfl
  rw [hh, h0]
  exact getPivotMatrix_zero 0

/-- **C8.** Every pose-solve tick outputs a 64-slot table of 4×4
matrices in which every slot outside the solved bone set
{0, 3, 6, 9, 12, 15, 16, 17, 22} is the identity matrix, and the root
slot (0) is always the identity. -/
theorem vrmUpdate_matrices (st : VRMState) (t : ℝ) :
    (vrmUpdate st t).matrices = solveHierarchy (updateRotations st t) st.matrices := rfl

theorem setLipSync_matrices (st : VRMState) (level : ℝ) :
    (setLipSync st level).matrices = st.matrices := rfl

theorem updateRotations_root (st : VRMState) (t : ℝ) :
    updateRotations st t 0 = ⟨0, 0, 0⟩ := rfl

theorem pose_solve_slots (evs : List (ℝ × ℝ)) (k : ℕ) (hk : k ∉ solveOrder) :
    (runTicks evs).matrices k = 1 ∧ (runTicks evs).matrices 0 = 1 := by
  unfold runTicks
  induction evs using List.reverseRecOn with
  | nil => exact ⟨rfl, rfl⟩
  | append_singleton es e ih =>
    rw [List.foldl_append, List.foldl_cons, List.foldl_nil, vrmUpdate_matrices,
      setLipSync_matrices]
    constructor
    · unfold solveHierarchy
      rw [solveFold_unwritten _ _ _ k hk]
      exact ih.1
    · exact solveHierarchy_root _ _ (updateRotations_root _ _)

theorem pose_solve_slots_witness :
    (runTicks [(1, 0.7), (2, 0.3)]).matrices 5 = 1 :=
  (pose_solve_slots [(1, 0.7), (2, 0.3)] 5 (by decide)).1

/- ### Header parsing and asset loading (`PLYLoader.load` header pass,
`GVRM.loadAssets` in `gvrm.ts`) -/

/-- `parseInt` over the digit run captured by the regex group
`(\d+)`. -/
def digitsToNat (ds : List Char) : ℕ :=
  ds.foldl (fun n c => n * 10 + (c.toNat - 48)) 0

/-- Extraction of the vertex count from one header line, modelling the
regex `/element vertex (\d+)/` (in a well-formed header the token
stands at the start of its own line). -/
def parseElementVertex (line : String) : Option ℕ :=
  if "element vertex ".toList.isPrefixOf line.toList then
    match (line.toList.drop 15).takeWhile Char.isDigit with
    | [] => none
    | ds => some (digitsToNat ds)
  else none

/-- The vertex-count token of the decoded header text: the first line
declaring `element vertex <N>`, if any. -/
def findVertexCount (headerLines : List String) : Option ℕ :=
  headerLines.findSome? parseElementVertex

/-- A fetched point-cloud binary after decoding: the ASCII header lines
(up to `end_header`) and the fixed-stride float records of the
payload. -/
structure PLYFile where
  headerLines : List String
  records : List (List ℝ)

/-- JavaScript `split(' ')`: split at every single space, keeping empty
segments. -/
def splitOnSpace : List Char → List (List Char)
  | [] => [[]]
  | c :: cs =>
    if c = ' ' then [] :: splitOnSpace cs
    else
      match splitOnSpace cs with
      | [] => [[c]]
      | w :: ws => (c :: w) :: ws

/-- The property names declared by `property float <name>` lines
(`headerText.split('\n').filter(l => l.startsWith('property float'))
.map(l => l.split(' ').pop())`). -/
def parseProps (headerLines : List String) : List (List Char) :=
  headerLines.filterMap (fun l =>
    if "property float".toList.isPrefixOf l.toList then
      some (((splitOnSpace l.toList).getLast?).getD [])
    else none)

/-- Reading one named property from a record; a property missing from
the header reads as 0 (the `read` closure of Pass 3). -/
def readProp (props : List (List Char)) (rec : List ℝ) (name : List Char) : ℝ :=
  match props.indexOf? name with
  | none => 0
  | some i => rec.getD i 0

/-- The raw positions parsed in Pass 1 of `PLYLoader.load`. -/
def recordsToPoints (props : List (List Char)) (recs : List (List ℝ)) : List V3 :=
  recs.map (fun r => ⟨readProp props r ['x'], readProp props r ['y'], readProp props r ['z']⟩)

/-- `PLYLoader.load`, abstracted over fetch/decode.  When the header
lacks the vertex-count token, the JS expression
`headerText.match(/element vertex (\d+)/)![1]` throws a `TypeError`
(the match is `null`), modelled by `Except.error`; otherwise the loader
parses `vertexCount` records and produces the rigged per-point
output. -/
def plyLoad (f : PLYFile) : Except String (List (ℕ × ℝ)) :=
  match findVertexCount f.headerLines with
  | none => .error "TypeError: cannot index null match of element vertex"
  | some n =>
    .ok (rigOutput (recordsToPoints (parseProps f.headerLines) (f.records.take n)))

/-- `GVRM.loadAssets`: the whole body is wrapped in `try/catch`; a
thrown parse error is caught (`console.error` + `return false`). -/
def loadAssets (f : PLYFile) : Bool :=
  match plyLoad f with
  | .ok _ => true
  | .error _ => false

/- ### Claim C5: a header without a vertex-count token is fatal -/

/-- **C5.** When the point-cloud header lacks the `element vertex <N>`
token, parsing raises a fatal error instead of producing 0 points, the
error propagates to the caller, and `loadAssets` reports failure
(returns `false`); it never succeeds with an empty point set. -/
theorem missing_vertex_count_fatal (f : PLYFile)
    (h : findVertexCount f.headerLines = none) :
    plyLoad f = .error "TypeError: cannot index null match of element vertex" ∧
    (∀ out, plyLoad f ≠ .ok out) ∧
    loadAssets f = false := by
  have herr : plyLoad f = .error "TypeError: cannot index null match of element vertex" := by
    unfold plyLoad
    rw [h]
  refine ⟨herr, ?_, ?_⟩
  · intro out hok
    rw [herr] at hok
    exact Except.noConfusion hok
  · unfold loadAssets
    rw [herr]

theorem missing_vertex_count_fatal_witness :
    findVertexCount (["ply", "format binary_little_endian 1.0", "end_header"]) = none ∧
    loadAssets ⟨["ply", "format binary_little_endian 1.0", "end_header"], []⟩ = false := by
  have h : findVertexCount (["ply", "format binary_little_endian 1.0", "end_header"]) = none := by
    decide
  exact ⟨h, (missing_vertex_count_fatal
    ⟨["ply", "format binary_little_endian 1.0", "end_header"], []⟩ h).2.2⟩

/- ### Claim C2: order-(in)dependence of the rigging pass

The nearest-neighbor loop keeps the bone of the first template point
attaining the minimum squared distance.  The lemmas below identify the
result when a template point at distance zero follows templates at
positive distance. -/

theorem distSqV_nonneg (p : V3) (tp : TPoint) : 0 ≤ distSqV p tp := by
  unfold distSqV
  positivity

theorem distSqV_pos_of_ne_y {p : V3} {tp : TPoint} (h : tp.y ≠ p.y) :
    0 < distSqV p tp := by
  unfold distSqV
  have h2 : 0 < (p.y - tp.y) ^ 2 := by
    have : p.y - tp.y ≠ 0 := sub_ne_zero.mpr (Ne.symm h)
    positivity
  nlinarith [sq_nonneg (p.x - tp.x), sq_nonneg (p.z - tp.z)]

theorem distSqV_pos_of_ne_z {p : V3} {tp : TPoint} (h : tp.z ≠ p.z) :
    0 < distSqV p tp := by
  unfold distSqV
  have h2 : 0 < (p.z - tp.z) ^ 2 := by
    have : p.z - tp.z ≠ 0 := sub_ne_zero.mpr (Ne.symm h)
    positivity
  nlinarith [sq_nonneg (p.x - tp.x), sq_nonneg (p.y - tp.y)]

theorem nearestFold_stays_zero (p : V3) (l : List TPoint) (b : ℕ) :
    l.foldl (nearestStep p) (b, ((0 : ℝ) : WithTop ℝ)) = (b, ((0 : ℝ) : WithTop ℝ)) := by
  induction l with
  | nil => rfl
  | cons t ts ih =>
    rw [List.foldl_cons]
    have hstep : nearestStep p (b, ((0 : ℝ) : WithTop ℝ)) t = (b, ((0 : ℝ) : WithTop ℝ)) := by
      unfold nearestStep
      rw [if_neg]
      simp only [WithTop.coe_lt_coe, not_lt]
      exact distSqV_nonneg p t
    rw [hstep, ih]

theorem nearestFold_pos (p : V3) (l : List TPoint)
    (hl : ∀ tp ∈ l, 0 < distSqV p tp) :
    ∀ acc : ℕ × WithTop ℝ, 0 < acc.2 → 0 < (l.foldl (nearestStep p) acc).2 := by
  induction l with
  | nil => intro acc hacc; exact hacc
  | cons t ts ih =>
    intro acc hacc
    rw [List.foldl_cons]
    refine ih (fun tp htp => hl tp (List.mem_cons_of_mem t htp)) _ ?_
    unfold nearestStep
    split
    · show (0 : WithTop ℝ) < ((distSqV p t : ℝ) : WithTop ℝ)
      exact_mod_cast hl t (List.mem_cons_self t ts)
    · exact hacc

/-- If every template before `t0` is at positive squared distance from
`p` and `t0` is at distance zero, the brute-force loop returns
`t0.bone`: later templates can never beat an exact hit under the strict
`<` update. -/
theorem nearestBone_first_zero (p : V3) (pre post : List TPoint) (t0 : TPoint)
    (hpre : ∀ tp ∈ pre, 0 < distSqV p tp) (ht0 : distSqV p t0 = 0) :
    nearestBone (pre ++ t0 :: post) p = t0.bone := by
  unfold nearestBone
  rw [List.foldl_append, List.foldl_cons]
  have hposacc : 0 < (pre.foldl (nearestStep p) ((0 : ℕ), (⊤ : WithTop ℝ))).2 :=
    nearestFold_pos p pre hpre _ (by simp)
  have hstep : nearestStep p (pre.foldl (nearestStep p) ((0 : ℕ), (⊤ : WithTop ℝ))) t0
      = (t0.bone, ((0 : ℝ) : WithTop ℝ)) := by
    unfold nearestStep
    rw [ht0, if_pos]
    exact_mod_cast hposacc
  rw [hstep, nearestFold_stays_zero]

/- Geometry of the template fans: every sample of a non-jaw fan has
`y = c.y + r·cos p` with `p ∈ [0, π/4]`, hence
`c.y + r·(√2/2) ≤ y ≤ c.y + r`, with equality `y = c.y + r` exactly at
the `i = 0` samples. -/

theorem fanPoint_zero (b : ℕ) (c : V3) (r : ℝ) (d j : ℕ) :
    fanPoint b c r d 0 j = ⟨c.x, c.y + r, c.z, b⟩ := by
  unfold fanPoint
  simp

theorem fanPoint_angle_mem (d i : ℕ) (hd : 0 < d) (hi : i ≤ d) :
    0 ≤ (i : ℝ) / d * (Real.pi / 4) ∧ (i : ℝ) / d * (Real.pi / 4) ≤ Real.pi / 4 := by
  have hd' : (0 : ℝ) < d := by exact_mod_cast hd
  have h01 : (i : ℝ) / d ≤ 1 := by
    rw [div_le_one hd']
    exact_mod_cast hi
  have h00 : 0 ≤ (i : ℝ) / d := by positivity
  constructor
  · positivity
  · nlinarith [Real.pi_pos]

theorem fanPoint_y_le (b : ℕ) (c : V3) (r : ℝ) (hr : 0 ≤ r) (d i j : ℕ) :
    (fanPoint b c r d i j).y ≤ c.y + r := by
  show c.y + r * Real.cos ((i : ℝ) / d * (Real.pi / 4)) ≤ c.y + r
  have := Real.cos_le_one ((i : ℝ) / d * (Real.pi / 4))
  nlinarith

theorem fanPoint_y_ge (b : ℕ) (c : V3) (r : ℝ) (hr : 0 ≤ r) (d i j : ℕ)
    (hd : 0 < d) (hi : i ≤ d) :
    c.y + r * (Real.sqrt 2 / 2) ≤ (fanPoint b c r d i j).y := by
  show c.y + r * (Real.sqrt 2 / 2) ≤ c.y + r * Real.cos ((i : ℝ) / d * (Real.pi / 4))
  obtain ⟨h0, h4⟩ := fanPoint_angle_mem d i hd hi
  have hcos : Real.cos (Real.pi / 4) ≤ Real.cos ((i : ℝ) / d * (Real.pi / 4)) :=
    Real.cos_le_cos_of_nonneg_of_le_pi h0 (by nlinarith [Real.pi_pos]) h4
  rw [Real.cos_pi_div_four] at hcos
  nlinarith

theorem fanPoint_y_lt (b : ℕ) (c : V3) (r : ℝ) (hr : 0 < r) (d i j : ℕ)
    (hd : 0 < d) (hi : i ≤ d) (hipos : 0 < i) :
    (fanPoint b c r d i j).y < c.y + r := by
  show c.y + r * Real.cos ((i : ℝ) / d * (Real.pi / 4)) < c.y + r
  obtain ⟨h0, h4⟩ := fanPoint_angle_mem d i hd hi
  have hppos : 0 < (i : ℝ) / d * (Real.pi / 4) := by
    have hd' : (0 : ℝ) < d := by exact_mod_cast hd
    have : (0 : ℝ) < (i : ℝ) := by exact_mod_cast hipos
    positivity
  have hcos : Real.cos ((i : ℝ) / d * (Real.pi / 4)) < Real.cos 0 :=
    Real.cos_lt_cos_of_nonneg_of_le_pi (le_refl 0)
      (le_trans h4 (by nlinarith [Real.pi_pos])) hppos
  rw [Real.cos_zero] at hcos
  nlinarith

theorem mem_addSphere_fan {tp : TPoint} {b : ℕ} {c : V3} {r : ℝ} {d : ℕ}
    (hb : b ≠ 22) (h : tp ∈ addSphere b c r d) :
    ∃ i ≤ d, ∃ j ≤ d, tp = fanPoint b c r d i j := by
  unfold addSphere at h
  rw [if_neg hb] at h
  simp only [List.mem_flatMap, List.mem_map, List.mem_range] at h
  obtain ⟨i, hi, j, hj, rfl⟩ := h
  exact ⟨i, by omega, j, by omega, rfl⟩

theorem addSphere_y_le {tp : TPoint} {b : ℕ} {c : V3} {r : ℝ} {d : ℕ}
    (hb : b ≠ 22) (hr : 0 ≤ r) (h : tp ∈ addSphere b c r d) :
    tp.y ≤ c.y + r := by
  obtain ⟨i, _, j, _, rfl⟩ := mem_addSphere_fan hb h
  exact fanPoint_y_le b c r hr d i j

theorem addSphere_y_ge {tp : TPoint} {b : ℕ} {c : V3} {r : ℝ} {d : ℕ}
    (hb : b ≠ 22) (hr : 0 ≤ r) (hd : 0 < d) (h : tp ∈ addSphere b c r d) :
    c.y + r * (Real.sqrt 2 / 2) ≤ tp.y := by
  obtain ⟨i, hi, j, _, rfl⟩ := mem_addSphere_fan hb h
  exact fanPoint_y_ge b c r hr d i j hd hi

/-- The head of a non-jaw fan is the `i = 0, j = 0` sample
`(c.x, c.y + r, c.z)`. -/
theorem addSphere_head (b : ℕ) (hb : b ≠ 22) (c : V3) (r : ℝ) (d : ℕ) :
    ∃ rest : List TPoint, addSphere b c r d = (⟨c.x, c.y + r, c.z, b⟩ : TPoint) :: rest ∧
      ∀ tp ∈ rest, tp ∈ addSphere b c r d := by
  unfold addSphere
  rw [if_neg hb]
  rw [List.range_succ_eq_map, List.flatMap_cons, List.map_cons]
  refine ⟨List.map (fun j => fanPoint b c r d 0 j) (List.map Nat.succ (List.range d)) ++
      (List.map Nat.succ (List.range d)).flatMap
        (fun i => List.map (fun j => fanPoint b c r d i j)
          (0 :: List.map Nat.succ (List.range d))), ?_, ?_⟩
  · rw [List.cons_append, fanPoint_zero]
  · intro tp htp
    rw [List.cons_append]
    exact List.mem_cons_of_mem _ htp

/- #### A concrete cloud on which the rigging pass is order-dependent

Nine points: two anchors fixing the bounding box (heights 0 and 1.7, so
normalization is the identity), five chest-height points sharing
`x = 0` and `y = 1.4` — the shoulder-band sort keys are all tied, so
the stable sort keeps them in input order and the outer-20% slices pick
input-order-dependent points — one lower chest point to keep the probe
out of the shoulder band, and the probe point `qpt` exactly 0.06 (the
shoulder radius) above a chest-height point. -/

def cloudA : List V3 :=
  [⟨0, 0, 0⟩, ⟨0, 1.7, 0⟩,
   ⟨0, 1.4, -0.02⟩, ⟨0, 1.4, -0.01⟩, ⟨0, 1.4, 0⟩, ⟨0, 1.4, 0.01⟩, ⟨0, 1.4, 0.02⟩,
   ⟨0, 1.3, 0⟩, ⟨0, 1.46, 0.02⟩]

/-- `cloudA` with the five tied chest-height points in reversed
order. -/
def cloudB : List V3 :=
  [⟨0, 0, 0⟩, ⟨0, 1.7, 0⟩,
   ⟨0, 1.4, 0.02⟩, ⟨0, 1.4, 0.01⟩, ⟨0, 1.4, 0⟩, ⟨0, 1.4, -0.01⟩, ⟨0, 1.4, -0.02⟩,
   ⟨0, 1.3, 0⟩, ⟨0, 1.46, 0.02⟩]

/-- The probe point whose bone assignment flips between the two
orderings. -/
def qpt : V3 := ⟨0, 1.46, 0.02⟩

/-- The common bounding box of both orderings. -/
def bbC : BBox := ⟨⟨0, 0, -0.02⟩, ⟨0, 1.7, 0.02⟩, ⟨0, 0.85, 0⟩, ⟨0, 1.7, 0.04⟩⟩

theorem bbox_cloudA : computeBoundingBox cloudA = bbC := by
  unfold computeBoundingBox bbC cloudA listMin listMax
  ext <;>
    norm_num [List.min?_cons', List.max?_cons', min_def, max_def]

theorem bbox_cloudB : computeBoundingBox cloudB = bbC := by
  unfold computeBoundingBox bbC cloudB listMin listMax
  ext <;>
    norm_num [List.min?_cons', List.max?_cons', min_def, max_def]

theorem norm_cloudA : normalizedCloud cloudA = cloudA := by
  unfold normalizedCloud
  rw [bbox_cloudA]
  unfold computeAdaptiveScale normalizePoint cloudA bbC
  norm_num

theorem norm_cloudB : normalizedCloud cloudB = cloudB := by
  unfold normalizedCloud
  rw [bbox_cloudB]
  unfold computeAdaptiveScale normalizePoint cloudB bbC
  norm_num

/- Band-by-band evaluation of the bone detector on the two orderings.
All bands except the chest and head are empty; the chest band holds the
five tied points, the low point and the probe (in cloud order), so its
centroid height is `9.76/7` and the shoulder band `9.76/7 ± 0.05` holds
exactly the five tied points. -/

theorem hips_cloudA : hipsBone cloudA bbC.size.y = ⟨⟨0, 0, 0⟩, 0.12⟩ := by
  unfold hipsBone getPointsInRange cloudA bbC
  norm_num [computeCentroid, computeStdDev, max_def]

theorem hips_cloudB : hipsBone cloudB bbC.size.y = ⟨⟨0, 0, 0⟩, 0.12⟩ := by
  unfold hipsBone getPointsInRange cloudB bbC
  norm_num [computeCentroid, computeStdDev, max_def]

theorem spine1_cloudA : spine1Bone cloudA bbC.size.y = ⟨⟨0, 0, 0⟩, 0.14⟩ := by
  unfold spine1Bone getPointsInRange cloudA bbC
  norm_num [computeCentroid, computeStdDev, max_def]

theorem spine1_cloudB : spine1Bone cloudB bbC.size.y = ⟨⟨0, 0, 0⟩, 0.14⟩ := by
  unfold spine1Bone getPointsInRange cloudB bbC
  norm_num [computeCentroid, computeStdDev, max_def]

theorem chest_cloudA : chestBone cloudA bbC.size.y = ⟨⟨0, 9.76 / 7, 0.02 / 7⟩, 0.15⟩ := by
  unfold chestBone getPointsInRange cloudA bbC
  norm_num [computeCentroid, computeStdDev, max_def]

theorem chest_cloudB : chestBone cloudB bbC.size.y = ⟨⟨0, 9.76 / 7, 0.02 / 7⟩, 0.15⟩ := by
  unfold chestBone getPointsInRange cloudB bbC
  norm_num [computeCentroid, computeStdDev, max_def]

theorem neck_cloudA : neckBone cloudA bbC.size.y = ⟨⟨0, 0, 0⟩, 0.1⟩ := by
  unfold neckBone getPointsInRange cloudA bbC
  norm_num [computeCentroid, computeStdDev, max_def]

theorem neck_cloudB : neckBone cloudB bbC.size.y = ⟨⟨0, 0, 0⟩, 0.1⟩ := by
  unfold neckBone getPointsInRange cloudB bbC
  norm_num [computeCentroid, computeStdDev, max_def]

theorem head_cloudA : headBone cloudA bbC.size.y = ⟨⟨0, 1.7, 0⟩, 0.1⟩ := by
  unfold headBone getPointsInRange cloudA bbC
  norm_num [computeCentroid, computeStdDev, max_def]

theorem head_cloudB : headBone cloudB bbC.size.y = ⟨⟨0, 1.7, 0⟩, 0.1⟩ := by
  unfold headBone getPointsInRange cloudB bbC
  norm_num [computeCentroid, computeStdDev, max_def]

theorem jaw_cloudA : jawBone cloudA ⟨0, 0, 0⟩ = ⟨⟨0, 0.05, 0.08⟩, 0.04⟩ := by
  unfold jawBone jawCandidates jawRegion cloudA
  norm_num [computeCentroid, List.insertionSort]

theorem jaw_cloudB : jawBone cloudB ⟨0, 0, 0⟩ = ⟨⟨0, 0.05, 0.08⟩, 0.04⟩ := by
  unfold jawBone jawCandidates jawRegion cloudB
  norm_num [computeCentroid, List.insertionSort]

theorem shoulderCluster_cloudA :
    shoulderCluster cloudA (9.76 / 7) =
      [⟨0, 1.4, -0.02⟩, ⟨0, 1.4, -0.01⟩, ⟨0, 1.4, 0⟩, ⟨0, 1.4, 0.01⟩, ⟨0, 1.4, 0.02⟩] := by
  unfold shoulderCluster getPointsInRange cloudA
  norm_num [List.insertionSort, List.orderedInsert]

theorem shoulderCluster_cloudB :
    shoulderCluster cloudB (9.76 / 7) =
      [⟨0, 1.4, 0.02⟩, ⟨0, 1.4, 0.01⟩, ⟨0, 1.4, 0⟩, ⟨0, 1.4, -0.01⟩, ⟨0, 1.4, -0.02⟩] := by
  unfold shoulderCluster getPointsInRange cloudB
  norm_num [List.insertionSort, List.orderedInsert]

theorem lShoulder_cloudA : lShoulderBone cloudA (9.76 / 7) = ⟨⟨0, 1.4, 0.02⟩, 0.06⟩ := by
  unfold lShoulderBone
  rw [shoulderCluster_cloudA]
  norm_num [computeCentroid]

theorem lShoulder_cloudB : lShoulderBone cloudB (9.76 / 7) = ⟨⟨0, 1.4, -0.02⟩, 0.06⟩ := by
  unfold lShoulderBone
  rw [shoulderCluster_cloudB]
  norm_num [computeCentroid]

theorem rShoulder_cloudA : rShoulderBone cloudA (9.76 / 7) = ⟨⟨0, 1.4, -0.02⟩, 0.06⟩ := by
  unfold rShoulderBone
  rw [shoulderCluster_cloudA]
  norm_num [computeCentroid]

theorem rShoulder_cloudB : rShoulderBone cloudB (9.76 / 7) = ⟨⟨0, 1.4, 0.02⟩, 0.06⟩ := by
  unfold rShoulderBone
  rw [shoulderCluster_cloudB]
  norm_num [computeCentroid]

/-- The detected bones of `cloudA`: the left shoulder sits at the tied
point that came last in input order, `z = 0.02`. -/
def bmA : BoneMap :=
  ⟨⟨⟨0, 0, 0⟩, 0.12⟩, ⟨⟨0, 0, 0⟩, 0.14⟩, ⟨⟨0, 9.76 / 7, 0.02 / 7⟩, 0.15⟩,
   ⟨⟨0, 0, 0⟩, 0.1⟩, ⟨⟨0, 1.7, 0⟩, 0.1⟩,
   ⟨⟨0, 1.4, 0.02⟩, 0.06⟩, ⟨⟨0, 1.4, -0.02⟩, 0.06⟩, ⟨⟨0, 0.05, 0.08⟩, 0.04⟩⟩

/-- The detected bones of `cloudB`: the shoulders land on the opposite
tied points. -/
def bmB : BoneMap :=
  ⟨⟨⟨0, 0, 0⟩, 0.12⟩, ⟨⟨0, 0, 0⟩, 0.14⟩, ⟨⟨0, 9.76 / 7, 0.02 / 7⟩, 0.15⟩,
   ⟨⟨0, 0, 0⟩, 0.1⟩, ⟨⟨0, 1.7, 0⟩, 0.1⟩,
   ⟨⟨0, 1.4, -0.02⟩, 0.06⟩, ⟨⟨0, 1.4, 0.02⟩, 0.06⟩, ⟨⟨0, 0.05, 0.08⟩, 0.04⟩⟩

theorem boneMap_cloudA : boneMapOf cloudA = bmA := by
  unfold boneMapOf
  rw [norm_cloudA, bbox_cloudA]
  unfold detectBonePositions
  rw [chest_cloudA, neck_cloudA]
  dsimp only
  rw [hips_cloudA, spine1_cloudA, head_cloudA,
    lShoulder_cloudA, rShoulder_cloudA, jaw_cloudA]
  unfold bmA
  norm_num

theorem boneMap_cloudB : boneMapOf cloudB = bmB := by
  unfold boneMapOf
  rw [norm_cloudB, bbox_cloudB]
  unfold detectBonePositions
  rw [chest_cloudB, neck_cloudB]
  dsimp only
  rw [hips_cloudB, spine1_cloudB, head_cloudB,
    lShoulder_cloudB, rShoulder_cloudB, jaw_cloudB]
  unfold bmB
  norm_num

theorem normalize_qpt_cloudA :
    normalizePoint (computeBoundingBox cloudA)
      (computeAdaptiveScale (computeBoundingBox cloudA) 1.70).scaleFactor qpt = qpt := by
  rw [bbox_cloudA]
  unfold normalizePoint computeAdaptiveScale bbC qpt
  norm_num

theorem normalize_qpt_cloudB :
    normalizePoint (computeBoundingBox cloudB)
      (computeAdaptiveScale (computeBoundingBox cloudB) 1.70).scaleFactor qpt = qpt := by
  rw [bbox_cloudB]
  unfold normalizePoint computeAdaptiveScale bbC qpt
  norm_num

theorem sqrt_two_gt : (1.4 : ℝ) < Real.sqrt 2 := by
  rw [show (1.4 : ℝ) = Real.sqrt (1.96) by
    rw [show (1.96 : ℝ) = 1.4 ^ 2 by norm_num, Real.sqrt_sq (by norm_num)]]
  exact Real.sqrt_lt_sqrt (by norm_num) (by norm_num)

/-- Every template of the hips, spine1, chest, neck and head fans lies
at a height different from `qpt.y = 1.46`, hence at positive squared
distance from `qpt`. -/
theorem pre_bones_miss_qpt (tp : TPoint)
    (htp : tp ∈ addSphere 0 ⟨0, 0, 0⟩ 0.12 4 ∨ tp ∈ addSphere 3 ⟨0, 0, 0⟩ 0.14 4 ∨
      tp ∈ addSphere 9 ⟨0, 9.76 / 7, 0.02 / 7⟩ 0.15 4 ∨ tp ∈ addSphere 12 ⟨0, 0, 0⟩ 0.1 4 ∨
      tp ∈ addSphere 15 ⟨0, 1.7, 0⟩ 0.1 5) :
    0 < distSqV qpt tp := by
  have hs2 := sqrt_two_gt
  have hs2' : (0 : ℝ) ≤ Real.sqrt 2 := Real.sqrt_nonneg 2
  rcases htp with h | h | h | h | h
  · have := addSphere_y_le (by norm_num) (by norm_num) h
    refine distSqV_pos_of_ne_y ?_
    show tp.y ≠ qpt.y
    unfold qpt
    dsimp only at this ⊢
    nlinarith
  · have := addSphere_y_le (by norm_num) (by norm_num) h
    refine distSqV_pos_of_ne_y ?_
    show tp.y ≠ qpt.y
    unfold qpt
    dsimp only at this ⊢
    nlinarith
  · have := addSphere_y_ge (by norm_num) (by norm_num) (by norm_num) h
    refine distSqV_pos_of_ne_y ?_
    show tp.y ≠ qpt.y
    unfold qpt
    dsimp only at this ⊢
    nlinarith
  · have := addSphere_y_le (by norm_num) (by norm_num) h
    refine distSqV_pos_of_ne_y ?_
    show tp.y ≠ qpt.y
    unfold qpt
    dsimp only at this ⊢
    nlinarith
  · have := addSphere_y_ge (by norm_num) (by norm_num) (by norm_num) h
    refine distSqV_pos_of_ne_y ?_
    show tp.y ≠ qpt.y
    unfold qpt
    dsimp only at this ⊢
    nlinarith

/-- In `cloudB`'s template list, every left-shoulder (bone 16) template
also misses `qpt`: the `i = 0` samples sit at the wrong Z, the others
strictly below height 1.46. -/
theorem lsh_cloudB_misses_qpt (tp : TPoint)
    (h : tp ∈ addSphere 16 ⟨0, 1.4, -0.02⟩ 0.06 4) :
    0 < distSqV qpt tp := by
  obtain ⟨i, hi, j, hj, rfl⟩ := mem_addSphere_fan (by norm_num) h
  rcases Nat.eq_zero_or_pos i with hz | hpos
  · subst hz
    rw [fanPoint_zero]
    refine distSqV_pos_of_ne_z ?_
    show (-0.02 : ℝ) ≠ qpt.z
    unfold qpt
    norm_num
  · have := fanPoint_y_lt 16 ⟨0, 1.4, -0.02⟩ 0.06 (by norm_num) 4 i j (by norm_num) hi hpos
    refine distSqV_pos_of_ne_y ?_
    show (fanPoint 16 ⟨0, 1.4, -0.02⟩ 0.06 4 i j).y ≠ qpt.y
    unfold qpt
    dsimp only at this ⊢
    nlinarith

theorem assigned_cloudA : assignedBone cloudA qpt = 16 := by
  unfold assignedBone
  rw [normalize_qpt_cloudA]
  unfold templatesOf
  rw [boneMap_cloudA]
  obtain ⟨rest16, h16, -⟩ := addSphere_head 16 (by norm_num) ⟨0, 1.4, 0.02⟩ 0.06 4
  have hsplit : generateTemplatePoints bmA =
      (addSphere 0 ⟨0, 0, 0⟩ 0.12 4 ++ (addSphere 3 ⟨0, 0, 0⟩ 0.14 4 ++
        (addSphere 9 ⟨0, 9.76 / 7, 0.02 / 7⟩ 0.15 4 ++ (addSphere 12 ⟨0, 0, 0⟩ 0.1 4 ++
          addSphere 15 ⟨0, 1.7, 0⟩ 0.1 5)))) ++
      ((⟨0, 1.4 + 0.06, 0.02, 16⟩ : TPoint) ::
        (rest16 ++ (addSphere 17 ⟨0, 1.4, -0.02⟩ 0.06 4 ++
          addSphere 22 ⟨0, 0.05, 0.08⟩ 0.04 8))) := by
    unfold generateTemplatePoints bmA
    dsimp only
    rw [h16]
    simp [List.append_assoc]
  rw [hsplit, nearestBone_first_zero]
  · intro tp htp
    simp only [List.mem_append] at htp
    exact pre_bones_miss_qpt tp (by tauto)
  · unfold distSqV qpt
    norm_num

theorem assigned_cloudB : assignedBone cloudB qpt = 17 := by
  unfold assignedBone
  rw [normalize_qpt_cloudB]
  unfold templatesOf
  rw [boneMap_cloudB]
  obtain ⟨rest17, h17, -⟩ := addSphere_head 17 (by norm_num) ⟨0, 1.4, 0.02⟩ 0.06 4
  have hsplit : generateTemplatePoints bmB =
      (addSphere 0 ⟨0, 0, 0⟩ 0.12 4 ++ (addSphere 3 ⟨0, 0, 0⟩ 0.14 4 ++
        (addSphere 9 ⟨0, 9.76 / 7, 0.02 / 7⟩ 0.15 4 ++ (addSphere 12 ⟨0, 0, 0⟩ 0.1 4 ++
          (addSphere 15 ⟨0, 1.7, 0⟩ 0.1 5 ++ addSphere 16 ⟨0, 1.4, -0.02⟩ 0.06 4))))) ++
      ((⟨0, 1.4 + 0.06, 0.02, 17⟩ : TPoint) ::
        (rest17 ++ addSphere 22 ⟨0, 0.05, 0.08⟩ 0.04 8)) := by
    unfold generateTemplatePoints bmB
    dsimp only
    rw [h17]
    simp [List.append_assoc]
  rw [hsplit, nearestBone_first_zero]
  · intro tp htp
    simp only [List.mem_append] at htp
    rcases htp with h | h | h | h | h | h
    · exact pre_bones_miss_qpt tp (by tauto)
    · exact pre_bones_miss_qpt tp (by tauto)
    · exact pre_bones_miss_qpt tp (by tauto)
    · exact pre_bones_miss_qpt tp (by tauto)
    · exact pre_bones_miss_qpt tp (by tauto)
    · exact lsh_cloudB_misses_qpt tp h
  · unfold distSqV qpt
    norm_num

theorem cloudB_perm_cloudA : cloudB.Perm cloudA := by
  have h5 : ([⟨0, 1.4, 0.02⟩, ⟨0, 1.4, 0.01⟩, ⟨0, 1.4, 0⟩, ⟨0, 1.4, -0.01⟩,
      ⟨0, 1.4, -0.02⟩] : List V3).Perm
      [⟨0, 1.4, -0.02⟩, ⟨0, 1.4, -0.01⟩, ⟨0, 1.4, 0⟩, ⟨0, 1.4, 0.01⟩, ⟨0, 1.4, 0.02⟩] := by
    have h := List.reverse_perm ([⟨0, 1.4, -0.02⟩, ⟨0, 1.4, -0.01⟩, ⟨0, 1.4, 0⟩,
      ⟨0, 1.4, 0.01⟩, ⟨0, 1.4, 0.02⟩] : List V3)
    simpa using h
  have h := List.Perm.append_left [(⟨0, 0, 0⟩ : V3), ⟨0, 1.7, 0⟩]
    (List.Perm.append_right [(⟨0, 1.3, 0⟩ : V3), ⟨0, 1.46, 0.02⟩] h5)
  simpa [cloudA, cloudB] using h

/-- **C2 counterexample.** `cloudB` is a permutation of `cloudA`, yet
the probe point `qpt` — present in both — is rigged to bone 16 in
`cloudA` and to bone 17 in `cloudB`: bone assignment is not
order-independent on clouds with tied shoulder-band sort keys. -/
theorem rig_order_dependent :
    cloudB.Perm cloudA ∧ qpt ∈ cloudA ∧
    assignedBone cloudA qpt = 16 ∧ assignedBone cloudB qpt = 17 :=
  ⟨cloudB_perm_cloudA, by unfold cloudA qpt; simp,
   assigned_cloudA, assigned_cloudB⟩

/- #### Order independence holds once the sort keys are distinct

Every stage of the rigging pass except the two stable sorts is a
filter, a sum or a pointwise map, all invariant under permutation of
the input order over exact arithmetic; the sorts themselves give the
same list on any permutation as soon as their keys (shoulder-band X,
jaw-region Y) are pairwise distinct. -/

theorem min?_perm {l₁ l₂ : List ℝ} (h : l₁.Perm l₂) : l₁.min? = l₂.min? := by
  haveI : Std.Antisymm (fun x1 x2 : ℝ => x1 ≤ x2) := ⟨@fun _ _ h1 h2 => le_antisymm h1 h2⟩
  cases hm : l₂.min? with
  | none =>
    rw [List.min?_eq_none_iff] at hm
    rw [hm] at h
    rw [h.eq_nil]
    rfl
  | some a =>
    rw [List.min?_eq_some_iff le_refl min_choice (fun _ _ _ => le_min_iff)] at hm ⊢
    exact ⟨h.mem_iff.mpr hm.1, fun b hb => hm.2 b (h.mem_iff.mp hb)⟩

theorem max?_perm {l₁ l₂ : List ℝ} (h : l₁.Perm l₂) : l₁.max? = l₂.max? := by
  haveI : Std.Antisymm (fun x1 x2 : ℝ => x1 ≤ x2) := ⟨@fun _ _ h1 h2 => le_antisymm h1 h2⟩
  cases hm : l₂.max? with
  | none =>
    rw [List.max?_eq_none_iff] at hm
    rw [hm] at h
    rw [h.eq_nil]
    rfl
  | some a =>
    rw [List.max?_eq_some_iff le_refl max_choice (fun _ _ _ => max_le_iff)] at hm ⊢
    exact ⟨h.mem_iff.mpr hm.1, fun b hb => hm.2 b (h.mem_iff.mp hb)⟩

theorem listMin_perm {l₁ l₂ : List ℝ} (h : l₁.Perm l₂) : listMin l₁ = listMin l₂ := by
  unfold listMin
  rw [min?_perm h]

theorem listMax_perm {l₁ l₂ : List ℝ} (h : l₁.Perm l₂) : listMax l₁ = listMax l₂ := by
  unfold listMax
  rw [max?_perm h]

theorem bbox_perm {l₁ l₂ : List V3} (h : l₁.Perm l₂) :
    computeBoundingBox l₁ = computeBoundingBox l₂ := by
  unfold computeBoundingBox
  rw [listMin_perm (h.map V3.x), listMin_perm (h.map V3.y), listMin_perm (h.map V3.z),
    listMax_perm (h.map V3.x), listMax_perm (h.map V3.y), listMax_perm (h.map V3.z)]

theorem computeCentroid_perm {l₁ l₂ : List V3} (h : l₁.Perm l₂) :
    computeCentroid l₁ = computeCentroid l₂ := by
  unfold computeCentroid
  rw [h.length_eq, List.Perm.sum_eq (h.map V3.x), List.Perm.sum_eq (h.map V3.y),
    List.Perm.sum_eq (h.map V3.z)]

theorem computeStdDev_perm {l₁ l₂ : List V3} (h : l₁.Perm l₂) (axis : V3 → ℝ) :
    computeStdDev l₁ axis = computeStdDev l₂ axis := by
  unfold computeStdDev
  rw [h.length_eq, List.Perm.sum_eq (h.map axis)]
  rw [List.Perm.sum_eq (h.map (fun p => (axis p - (l₂.map axis).sum / l₂.length) ^ 2))]

theorem getPointsInRange_perm {l₁ l₂ : List V3} (h : l₁.Perm l₂) (a b : ℝ) :
    (getPointsInRange l₁ a b).Perm (getPointsInRange l₂ a b) := h.filter _

/-- Two permuted lists, both sorted by a key that is duplicate-free on
them, are equal. -/
theorem perm_sorted_nodup_eq (key : V3 → ℝ) :
    ∀ {l₁ l₂ : List V3}, l₁.Perm l₂ →
      l₁.Sorted (fun a b => key a ≤ key b) → l₂.Sorted (fun a b => key a ≤ key b) →
      (l₁.map key).Nodup → l₁ = l₂ := by
  intro l₁
  induction l₁ with
  | nil => intro l₂ h _ _ _; rw [h.symm.eq_nil]
  | cons a t₁ ih =>
    intro l₂ h hs₁ hs₂ hnd
    cases l₂ with
    | nil => exact absurd h.eq_nil (by simp)
    | cons b t₂ =>
      rcases eq_or_ne a b with rfl | hab
      · rw [ih (h.cons_inv) (List.sorted_cons.mp hs₁).2 (List.sorted_cons.mp hs₂).2
          (by simpa using (List.nodup_cons.mp (by simpa using hnd)).2)]
      · exfalso
        have hamem : a ∈ b :: t₂ := h.mem_iff.mp (List.mem_cons_self a t₁)
        have hbmem : b ∈ a :: t₁ := h.mem_iff.mpr (List.mem_cons_self b t₂)
        have hat₂ : a ∈ t₂ := by
          rcases List.mem_cons.mp hamem with h' | h'
          · exact absurd h' hab
          · exact h'
        have hbt₁ : b ∈ t₁ := by
          rcases List.mem_cons.mp hbmem with h' | h'
          · exact absurd h'.symm hab
          · exact h'
        have h1 : key a ≤ key b := (List.sorted_cons.mp hs₁).1 b hbt₁
        have h2 : key b ≤ key a := (List.sorted_cons.mp hs₂).1 a hat₂
        have hkey : key b = key a := le_antisymm h2 h1
        have : key a ∈ t₁.map key := List.mem_map.mpr ⟨b, hbt₁, hkey⟩
        exact (List.nodup_cons.mp (by simpa using hnd)).1 this

theorem insertionSort_eq_of_perm (key : V3 → ℝ) {l₁ l₂ : List V3} (h : l₁.Perm l₂)
    (hnd : (l₁.map key).Nodup) :
    List.insertionSort (fun a b => key a ≤ key b) l₁
      = List.insertionSort (fun a b => key a ≤ key b) l₂ := by
  haveI : IsTotal V3 (fun a b => key a ≤ key b) := ⟨fun a b => le_total _ _⟩
  haveI : IsTrans V3 (fun a b => key a ≤ key b) := ⟨fun _ _ _ h1 h2 => le_trans h1 h2⟩
  have hp : (List.insertionSort (fun a b => key a ≤ key b) l₁).Perm
      (List.insertionSort (fun a b => key a ≤ key b) l₂) :=
    (List.perm_insertionSort _ l₁).trans (h.trans (List.perm_insertionSort _ l₂).symm)
  refine perm_sorted_nodup_eq key hp (List.sorted_insertionSort _ l₁)
    (List.sorted_insertionSort _ l₂) ?_
  exact (((List.perm_insertionSort _ l₁).map key).nodup_iff).mpr hnd

theorem jawBone_perm {l₁ l₂ : List V3} (h : l₁.Perm l₂) (nc : V3)
    (hnd : ((jawRegion l₁ nc).map V3.y).Nodup) :
    jawBone l₁ nc = jawBone l₂ nc := by
  have hreg : (jawRegion l₁ nc).Perm (jawRegion l₂ nc) := h.filter _
  have hsorted : List.insertionSort (fun a b => a.y ≤ b.y) (jawRegion l₁ nc)
      = List.insertionSort (fun a b => a.y ≤ b.y) (jawRegion l₂ nc) :=
    insertionSort_eq_of_perm V3.y hreg hnd
  unfold jawBone jawCandidates
  rw [hsorted]

theorem shoulderCluster_perm {l₁ l₂ : List V3} (h : l₁.Perm l₂) (sh : ℝ)
    (hnd : ((getPointsInRange l₁ (sh - 0.05) (sh + 0.05)).map V3.x).Nodup) :
    shoulderCluster l₁ sh = shoulderCluster l₂ sh := by
  unfold shoulderCluster
  exact insertionSort_eq_of_perm V3.x (getPointsInRange_perm h _ _) hnd

theorem detectBonePositions_perm {l₁ l₂ : List V3} (h : l₁.Perm l₂) (bbox : BBox)
    (hndSh : ((getPointsInRange l₁ ((chestBone l₁ bbox.size.y).position.y - 0.05)
      ((chestBone l₁ bbox.size.y).position.y + 0.05)).map V3.x).Nodup)
    (hndJaw : ((jawRegion l₁ (neckBone l₁ bbox.size.y).position).map V3.y).Nodup) :
    detectBonePositions l₁ bbox = detectBonePositions l₂ bbox := by
  have hhips : hipsBone l₁ bbox.size.y = hipsBone l₂ bbox.size.y := by
    unfold hipsBone
    rw [computeCentroid_perm (getPointsInRange_perm h _ _),
      computeStdDev_perm (getPointsInRange_perm h _ _)]
  have hspine : spine1Bone l₁ bbox.size.y = spine1Bone l₂ bbox.size.y := by
    unfold spine1Bone
    rw [computeCentroid_perm (getPointsInRange_perm h _ _),
      computeStdDev_perm (getPointsInRange_perm h _ _)]
  have hchest : chestBone l₁ bbox.size.y = chestBone l₂ bbox.size.y := by
    unfold chestBone
    rw [computeCentroid_perm (getPointsInRange_perm h _ _),
      computeStdDev_perm (getPointsInRange_perm h _ _)]
  have hneck : neckBone l₁ bbox.size.y = neckBone l₂ bbox.size.y := by
    unfold neckBone
    rw [computeCentroid_perm (getPointsInRange_perm h _ _),
      computeStdDev_perm (getPointsInRange_perm h _ _)]
  have hhead : headBone l₁ bbox.size.y = headBone l₂ bbox.size.y := by
    unfold headBone
    rw [computeCentroid_perm (getPointsInRange_perm h _ _),
      computeStdDev_perm (getPointsInRange_perm h _ _)]
  have hcluster : shoulderCluster l₁ (chestBone l₁ bbox.size.y).position.y
      = shoulderCluster l₂ (chestBone l₂ bbox.size.y).position.y := by
    rw [← hchest]
    exact shoulderCluster_perm h _ hndSh
  have hlsh : lShoulderBone l₁ (chestBone l₁ bbox.size.y).position.y
      = lShoulderBone l₂ (chestBone l₂ bbox.size.y).position.y := by
    unfold lShoulderBone
    rw [hcluster]
  have hrsh : rShoulderBone l₁ (chestBone l₁ bbox.size.y).position.y
      = rShoulderBone l₂ (chestBone l₂ bbox.size.y).position.y := by
    unfold rShoulderBone
    rw [hcluster]
  have hjaw : jawBone l₁ (neckBone l₁ bbox.size.y).position
      = jawBone l₂ (neckBone l₂ bbox.size.y).position := by
    rw [← hneck]
    exact jawBone_perm h _ hndJaw
  unfold detectBonePositions
  rw [hhips, hspine, hhead, hlsh, hrsh, hjaw, hchest, hneck]

/-- **C2 amended.** For every point cloud whose normalized shoulder-band
points have pairwise-distinct X coordinates and whose normalized
jaw-region candidate points have pairwise-distinct Y coordinates,
rigging any permutation of the cloud gives each individual point the
same final bone assignment: bone detection, template generation and
nearest-template-point assignment are order-independent of input point
order. -/
theorem rig_order_independent_of_distinct (l₁ l₂ : List V3) (h : l₂.Perm l₁)
    (hndSh : ((getPointsInRange (normalizedCloud l₁)
      ((chestBone (normalizedCloud l₁)
        (computeBoundingBox (normalizedCloud l₁)).size.y).position.y - 0.05)
      ((chestBone (normalizedCloud l₁)
        (computeBoundingBox (normalizedCloud l₁)).size.y).position.y + 0.05)).map V3.x).Nodup)
    (hndJaw : ((jawRegion (normalizedCloud l₁)
      (neckBone (normalizedCloud l₁)
        (computeBoundingBox (normalizedCloud l₁)).size.y).position).map V3.y).Nodup)
    (p : V3) :
    assignedBone l₂ p = assignedBone l₁ p := by
  have hbb : computeBoundingBox l₂ = computeBoundingBox l₁ := bbox_perm h
  have hnorm : (normalizedCloud l₂).Perm (normalizedCloud l₁) := by
    unfold normalizedCloud
    rw [hbb]
    exact h.map _
  have hbbn : computeBoundingBox (normalizedCloud l₂)
      = computeBoundingBox (normalizedCloud l₁) := bbox_perm hnorm
  have hdet : boneMapOf l₂ = boneMapOf l₁ := by
    unfold boneMapOf
    rw [hbbn]
    exact (detectBonePositions_perm hnorm.symm _ hndSh hndJaw).symm
  unfold assignedBone templatesOf
  rw [hdet, hbb]

/- Witness material: the four-point calibration cloud has a singleton
(normalized) shoulder band and an empty jaw region, so its sort keys
are trivially duplicate-free. -/

def bbF : BBox := ⟨⟨0, 0, 0⟩, ⟨0, 1.8, 0⟩, ⟨0, 0.9, 0⟩, ⟨0, 1.8, 0⟩⟩

theorem bbox_cloudFour : computeBoundingBox cloudFour = bbF := by
  unfold computeBoundingBox bbF cloudFour listMin listMax
  ext <;>
    norm_num [List.min?_cons', List.max?_cons', min_def, max_def]

/-- The normalized four-point cloud. -/
def cloudFourN : List V3 := [⟨0, 0, 0⟩, ⟨0, 1.7 / 3, 0⟩, ⟨0, 3.4 / 3, 0⟩, ⟨0, 1.7, 0⟩]

theorem norm_cloudFour : normalizedCloud cloudFour = cloudFourN := by
  unfold normalizedCloud
  rw [bbox_cloudFour]
  unfold computeAdaptiveScale normalizePoint cloudFour cloudFourN bbF
  norm_num

def bbFN : BBox := ⟨⟨0, 0, 0⟩, ⟨0, 1.7, 0⟩, ⟨0, 0.85, 0⟩, ⟨0, 1.7, 0⟩⟩

theorem bbox_cloudFourN : computeBoundingBox cloudFourN = bbFN := by
  unfold computeBoundingBox bbFN cloudFourN listMin listMax
  ext <;>
    norm_num [List.min?_cons', List.max?_cons', min_def, max_def]

theorem chest_cloudFourN : chestBone cloudFourN bbFN.size.y = ⟨⟨0, 0, 0⟩, 0.15⟩ := by
  unfold chestBone getPointsInRange cloudFourN bbFN
  norm_num [computeCentroid, computeStdDev, max_def]

theorem neck_cloudFourN : neckBone cloudFourN bbFN.size.y = ⟨⟨0, 0, 0⟩, 0.1⟩ := by
  unfold neckBone getPointsInRange cloudFourN bbFN
  norm_num [computeCentroid, computeStdDev, max_def]

/-- `cloudFour` reversed. -/
def cloudFourRev : List V3 := [⟨0, 1.8, 0⟩, ⟨0, 1.2, 0⟩, ⟨0, 0.6, 0⟩, ⟨0, 0, 0⟩]

theorem rig_order_independent_of_distinct_witness :
    cloudFourRev.Perm cloudFour ∧
    assignedBone cloudFourRev ⟨0, 0, 0⟩ = assignedBone cloudFour ⟨0, 0, 0⟩ := by
  have hperm : cloudFourRev.Perm cloudFour := by
    have h := List.reverse_perm cloudFour
    simpa [cloudFour, cloudFourRev] using h
  refine ⟨hperm, rig_order_independent_of_distinct cloudFour cloudFourRev hperm ?_ ?_ ⟨0, 0, 0⟩⟩
  · rw [norm_cloudFour, bbox_cloudFourN, chest_cloudFourN]
    unfold getPointsInRange cloudFourN
    norm_num
  · rw [norm_cloudFour, bbox_cloudFourN, neck_cloudFourN]
    unfold jawRegion cloudFourN
    norm_num

end
